import Mathlib

/-!
Shallow embedding of the Intcode interpreter in
`src/day-13/rust/src/interpreter.rs`.

The Rust machine state (`struct Interpreter`) becomes a Lean structure; the
`HashMap<i64, i64>` memory becomes a partial map `Int → Option Int` with an
`insert` operation; methods that can `panic!` (`parse_opcode`, `put`, and
hence `step`) return `Option` with `none` standing for the abort.
-/

namespace Intcode

/-- The sparse memory: Rust's `HashMap<i64, i64>`. `none` means the address
was never inserted. -/
def Mem : Type := Int → Option Int

/-- Rust `HashMap::insert`. -/
def Mem.insert (m : Mem) (k v : Int) : Mem :=
  fun a => if a = k then some v else m a

/-- The empty map (`HashMap::new`). -/
def Mem.empty : Mem := fun _ => none

/-- Rust `enum Mode`. -/
inductive Mode where
  | Position
  | Immediate
  | Relative
  deriving DecidableEq, Repr

/-- Rust `enum OpCode`. -/
inductive OpCode where
  | Add (p1 p2 p3 : Mode)
  | Multiply (p1 p2 p3 : Mode)
  | Halt
  | Input (p1 : Mode)
  | Output (p1 : Mode)
  | JumpIfTrue (p1 p2 : Mode)
  | JumpIfFalse (p1 p2 : Mode)
  | LessThan (p1 p2 p3 : Mode)
  | Equals (p1 p2 p3 : Mode)
  | AdjustBase (p1 : Mode)
  | Noop
  deriving DecidableEq, Repr

/-- Rust `struct Interpreter`. -/
structure Interpreter where
  codes : Mem
  position : Int
  is_running : Bool
  last_output : Int
  has_outputted : Bool
  relative_base : Int
  joystick : Int
  outputs : List Int

/-- Little-endian decimal digits of `n` (empty for 0), written with explicit
fuel so that it is structurally recursive; fuel `n` always suffices because
the argument is divided by 10 at each step. -/
def digAux : Nat → Nat → List Nat
  | 0, _ => []
  | fuel + 1, n => if n = 0 then [] else n % 10 :: digAux fuel (n / 10)

/-- Little-endian decimal digits of `n`; `[]` for `n = 0`. -/
def decDigits (n : Nat) : List Nat := digAux n n

/-- Embeds `Interpreter::parse_mode`: mode digit 0/1/2 select the three modes, any
other digit falls back to `Position`. -/
def parse_mode (mode : Int) : Mode :=
  if mode = 0 then Mode.Position
  else if mode = 1 then Mode.Immediate
  else if mode = 2 then Mode.Relative
  else Mode.Position

/-- Embeds `Interpreter::get_digits`: `number.to_string()` followed by
`filter_map(to_digit)` yields the decimal digits of `|number|`, most
significant first (a sign character is filtered out; `0` prints as "0").
The source then reverses, pads with 0 up to length 5, reverses back, and
reads modes and the opcode off fixed indices; the list always has length at
least 5, so `getD _ 0` never takes its default. -/
def get_digits (number : Int) : Mode × Mode × Mode × Int :=
  let n : Nat := number.natAbs
  let digits : List Nat := if n = 0 then [0] else (decDigits n).reverse
  let digits : List Nat := digits.reverse
  let digits : List Nat := digits ++ List.replicate (5 - digits.length) 0
  let digits : List Nat := digits.reverse
  (parse_mode (digits.getD 2 0 : Nat),
   parse_mode (digits.getD 1 0 : Nat),
   parse_mode (digits.getD 0 0 : Nat),
   ((digits.getD 3 0 : Nat) : Int) * 10 + ((digits.getD 4 0 : Nat) : Int))

/-- Embeds `Interpreter::parse_opcode`; `none` is the `panic!("Unimplemented
opcode")` arm. -/
def parse_opcode (op : Int) : Option OpCode :=
  match get_digits op with
  | (p1_mode, p2_mode, p3_mode, o) =>
    if o = 1 then some (OpCode.Add p1_mode p2_mode p3_mode)
    else if o = 2 then some (OpCode.Multiply p1_mode p2_mode p3_mode)
    else if o = 3 then some (OpCode.Input p1_mode)
    else if o = 4 then some (OpCode.Output p1_mode)
    else if o = 5 then some (OpCode.JumpIfTrue p1_mode p2_mode)
    else if o = 6 then some (OpCode.JumpIfFalse p1_mode p2_mode)
    else if o = 7 then some (OpCode.LessThan p1_mode p2_mode p3_mode)
    else if o = 8 then some (OpCode.Equals p1_mode p2_mode p3_mode)
    else if o = 9 then some (OpCode.AdjustBase p1_mode)
    else if o = 99 then some OpCode.Halt
    else if o = 0 then some OpCode.Noop
    else none

/-- The `for (i, c) in codes.iter().enumerate()` loop of `Interpreter::new`:
insert the program values at consecutive addresses starting from `i`. -/
def loadProg : List Int → Int → Mem → Mem
  | [], _, d => d
  | c :: cs, i, d => loadProg cs (i + 1) (Mem.insert d i c)

/-- Embeds `Interpreter::new`: the constructor takes only the program; `joystick`
(the machine's input register) starts at 0. -/
def Interpreter.new (codes : List Int) : Interpreter where
  codes := loadProg codes 0 Mem.empty
  position := 0
  is_running := true
  last_output := 0
  has_outputted := false
  relative_base := 0
  joystick := 0
  outputs := []

/-- Embeds `Interpreter::fetch`: `codes.get(&pos).unwrap_or(&0)`. -/
def fetch (m : Interpreter) (pos : Int) : Int :=
  (m.codes pos).getD 0

/-- Embeds `Interpreter::get_operand`. -/
def get_operand (m : Interpreter) (pos : Int) (mode : Mode) : Int :=
  match mode with
  | Mode.Immediate => fetch m pos
  | Mode.Position => fetch m (fetch m pos)
  | Mode.Relative => fetch m (m.relative_base + fetch m pos)

/-- Embeds `Interpreter::put`; `none` is the `panic!("Writing data may only be
position or relative")` arm. -/
def put (m : Interpreter) (pos data : Int) (mode : Mode) : Option Interpreter :=
  match mode with
  | Mode.Position =>
      some { m with codes := m.codes.insert (fetch m pos) data }
  | Mode.Relative =>
      some { m with codes := m.codes.insert (m.relative_base + fetch m pos) data }
  | Mode.Immediate => none

/-- Embeds `Interpreter::step`; `none` propagates a panic from decoding or writing. -/
def step (m : Interpreter) : Option Interpreter :=
  match parse_opcode (fetch m m.position) with
  | none => none
  | some op =>
    if op = OpCode.Halt then
      some { m with is_running := false }
    else
      match op with
      | OpCode.Add p1_mode p2_mode p3_mode =>
          let operand_1 := get_operand m (m.position + 1) p1_mode
          let operand_2 := get_operand m (m.position + 2) p2_mode
          (put m (m.position + 3) (operand_1 + operand_2) p3_mode).map
            (fun m' => { m' with position := m'.position + 4 })
      | OpCode.Multiply p1_mode p2_mode p3_mode =>
          let operand_1 := get_operand m (m.position + 1) p1_mode
          let operand_2 := get_operand m (m.position + 2) p2_mode
          (put m (m.position + 3) (operand_1 * operand_2) p3_mode).map
            (fun m' => { m' with position := m'.position + 4 })
      | OpCode.Halt =>
          -- dead arm in the source (the early return above fires first)
          some { m with position := m.position + 1 }
      | OpCode.Input p1_mode =>
          (put m (m.position + 1) m.joystick p1_mode).map
            (fun m' => { m' with position := m'.position + 2 })
      | OpCode.Output fetch_mode =>
          let output := get_operand m (m.position + 1) fetch_mode
          some { m with last_output := output, has_outputted := true,
                        outputs := m.outputs ++ [output],
                        position := m.position + 2 }
      | OpCode.JumpIfTrue p1_mode p2_mode =>
          let comparison := get_operand m (m.position + 1) p1_mode
          let to_jump := get_operand m (m.position + 2) p2_mode
          if comparison ≠ 0 then some { m with position := to_jump }
          else some { m with position := m.position + 3 }
      | OpCode.JumpIfFalse p1_mode p2_mode =>
          let comparison := get_operand m (m.position + 1) p1_mode
          let to_jump := get_operand m (m.position + 2) p2_mode
          if comparison = 0 then some { m with position := to_jump }
          else some { m with position := m.position + 3 }
      | OpCode.LessThan p1_mode p2_mode p3_mode =>
          let comparison_1 := get_operand m (m.position + 1) p1_mode
          let comparison_2 := get_operand m (m.position + 2) p2_mode
          (if comparison_1 < comparison_2
            then put m (m.position + 3) 1 p3_mode
            else put m (m.position + 3) 0 p3_mode).map
            (fun m' => { m' with position := m'.position + 4 })
      | OpCode.Equals p1_mode p2_mode p3_mode =>
          let comparison_1 := get_operand m (m.position + 1) p1_mode
          let comparison_2 := get_operand m (m.position + 2) p2_mode
          (if comparison_1 = comparison_2
            then put m (m.position + 3) 1 p3_mode
            else put m (m.position + 3) 0 p3_mode).map
            (fun m' => { m' with position := m'.position + 4 })
      | OpCode.AdjustBase p1_mode =>
          let arg := get_operand m (m.position + 1) p1_mode
          some { m with relative_base := m.relative_base + arg,
                        position := m.position + 2 }
      | OpCode.Noop =>
          some { m with position := m.position + 1 }

/-- Run `step` a fixed number of times, propagating a panic. -/
def stepN : Nat → Interpreter → Option Interpreter
  | 0, m => some m
  | n + 1, m => (step m).bind (stepN n)

end Intcode

namespace Intcode

/-! ### Decimal digit extraction -/

/-- The fuel of `digAux` is irrelevant as long as it is at least the number. -/
theorem digAux_congr (f : Nat) : ∀ (g n : Nat), n ≤ f → n ≤ g →
    digAux f n = digAux g n := by
  induction f with
  | zero =>
    intro g n hf _
    have hn : n = 0 := Nat.le_zero.mp hf
    subst hn
    cases g <;> simp [digAux]
  | succ f ih =>
    intro g n hf hg
    cases g with
    | zero =>
      have hn : n = 0 := Nat.le_zero.mp hg
      subst hn
      simp [digAux]
    | succ g =>
      by_cases hn : n = 0
      · simp [digAux, hn]
      · simp only [digAux, hn, if_false]
        exact congrArg _ (ih g (n / 10) (by omega) (by omega))

theorem decDigits_zero : decDigits 0 = [] := rfl

/-- Unfolding equation for `decDigits` on a nonzero number. -/
theorem decDigits_cons (n : Nat) (h : n ≠ 0) :
    decDigits n = n % 10 :: decDigits (n / 10) := by
  obtain ⟨k, rfl⟩ : ∃ k, n = k + 1 := ⟨n - 1, by omega⟩
  show digAux (k + 1) (k + 1) = (k + 1) % 10 :: digAux ((k + 1) / 10) ((k + 1) / 10)
  simp only [digAux, h, if_false]
  exact congrArg _ (digAux_congr k ((k + 1) / 10) ((k + 1) / 10) (by omega) (by omega))

end Intcode

namespace Intcode

/-- The digit list of `n < 100000` that `get_digits` pads to length 5,
little-endian: exactly the units, tens, hundreds, thousands and
ten-thousands digits. -/
theorem digits_pad_five (n : Nat) (h : n < 100000) :
    (if n = 0 then [0] else decDigits n) ++
      List.replicate (5 - (if n = 0 then [0] else decDigits n).length) 0 =
    [n % 10, n / 10 % 10, n / 100 % 10, n / 1000 % 10, n / 10000 % 10] := by
  by_cases h0 : n = 0
  · subst h0; rfl
  rw [if_neg h0, decDigits_cons n h0]
  by_cases h1 : n / 10 = 0
  · rw [h1, decDigits_zero]; simp [List.cons.injEq]; omega
  rw [decDigits_cons _ h1]
  by_cases h2 : n / 10 / 10 = 0
  · rw [h2, decDigits_zero]; simp [List.cons.injEq]; omega
  rw [decDigits_cons _ h2]
  by_cases h3 : n / 10 / 10 / 10 = 0
  · rw [h3, decDigits_zero]; simp [List.cons.injEq]; omega
  rw [decDigits_cons _ h3]
  by_cases h4 : n / 10 / 10 / 10 / 10 = 0
  · rw [h4, decDigits_zero]; simp [List.cons.injEq]; omega
  rw [decDigits_cons _ h4]
  have h5 : n / 10 / 10 / 10 / 10 / 10 = 0 := by omega
  rw [h5, decDigits_zero]
  simp [List.cons.injEq]
  omega

end Intcode

namespace Intcode

/-- C1 (amended): for an instruction value of at most five decimal digits,
decoding splits it into an opcode equal to the low two decimal digits of its
absolute value and per-parameter modes taken from the hundreds digit
(parameter 1), thousands digit (parameter 2) and ten-thousands digit
(parameter 3), where mode digit 0 maps to Position, 1 to Immediate, 2 to
Relative, and any other digit falls back to Position without aborting. -/
theorem decode_splits_digits (v : Int) (h : v.natAbs < 100000) :
    get_digits v =
      (parse_mode ((v.natAbs / 100 % 10 : Nat) : Int),
       parse_mode ((v.natAbs / 1000 % 10 : Nat) : Int),
       parse_mode ((v.natAbs / 10000 % 10 : Nat) : Int),
       ((v.natAbs % 100 : Nat) : Int)) ∧
    parse_mode 0 = Mode.Position ∧ parse_mode 1 = Mode.Immediate ∧
    parse_mode 2 = Mode.Relative ∧
    (∀ d : Int, d ≠ 0 → d ≠ 1 → d ≠ 2 → parse_mode d = Mode.Position) := by
  constructor
  · have key := digits_pad_five v.natAbs h
    simp only [get_digits]
    rw [apply_ite List.reverse]
    simp only [List.reverse_reverse, List.reverse_nil, List.reverse_cons,
      List.nil_append]
    rw [key]
    simp only [List.reverse_cons, List.nil_append, List.cons_append,
      List.append_nil, List.reverse_nil, List.getD, List.get?, Option.getD_some,
      Prod.mk.injEq]
    refine ⟨trivial, trivial, trivial, ?_⟩
    push_cast
    omega
  · refine ⟨rfl, rfl, rfl, ?_⟩
    intro d h0 h1 h2
    simp [parse_mode, h0, h1, h2]

/-- Witness for C1: decoding 21002 at a concrete five-digit input. -/
theorem decode_splits_digits_witness :
    get_digits 21002 =
      (parse_mode (((21002 : Int).natAbs / 100 % 10 : Nat) : Int),
       parse_mode (((21002 : Int).natAbs / 1000 % 10 : Nat) : Int),
       parse_mode (((21002 : Int).natAbs / 10000 % 10 : Nat) : Int),
       (((21002 : Int).natAbs % 100 : Nat) : Int)) :=
  (decode_splits_digits 21002 (by decide)).1

/-- C1 counterexample: for the six-digit instruction value 123456 the decoded
opcode is 45, while the low two decimal digits are 56. -/
theorem decode_six_digits_not_low_two :
    (get_digits 123456).2.2.2 = 45 ∧ (123456 : Int) % 100 = 56 ∧
      ((45 : Int) ≠ 56) := by decide

/-- C10: decoding ignores the sign of the instruction value: `-v` decodes to
the same instruction as `v`; in particular `-99` decodes to `Halt`. -/
theorem decode_neg (v : Int) :
    parse_opcode (-v) = parse_opcode v ∧
      parse_opcode (-99) = some OpCode.Halt := by
  constructor
  · have hd : get_digits (-v) = get_digits v := by
      simp only [get_digits, Int.natAbs_neg]
    simp only [parse_opcode, hd]
  · decide

/-- C4: decoding aborts with the unimplemented-opcode panic exactly when the
decoded low-two-digit opcode is none of 1-9, 99 or 0; on each of those eleven
opcodes it returns the corresponding `OpCode` variant and never aborts. -/
theorem parse_opcode_table (v : Int) :
    (parse_opcode v = none ↔
      ¬ ((get_digits v).2.2.2 ∈ ([1, 2, 3, 4, 5, 6, 7, 8, 9, 99, 0] : List Int))) ∧
    (∀ p1 p2 p3 o, get_digits v = (p1, p2, p3, o) →
      (o = 1 → parse_opcode v = some (OpCode.Add p1 p2 p3)) ∧
      (o = 2 → parse_opcode v = some (OpCode.Multiply p1 p2 p3)) ∧
      (o = 3 → parse_opcode v = some (OpCode.Input p1)) ∧
      (o = 4 → parse_opcode v = some (OpCode.Output p1)) ∧
      (o = 5 → parse_opcode v = some (OpCode.JumpIfTrue p1 p2)) ∧
      (o = 6 → parse_opcode v = some (OpCode.JumpIfFalse p1 p2)) ∧
      (o = 7 → parse_opcode v = some (OpCode.LessThan p1 p2 p3)) ∧
      (o = 8 → parse_opcode v = some (OpCode.Equals p1 p2 p3)) ∧
      (o = 9 → parse_opcode v = some (OpCode.AdjustBase p1)) ∧
      (o = 99 → parse_opcode v = some OpCode.Halt) ∧
      (o = 0 → parse_opcode v = some OpCode.Noop)) := by
  constructor
  · rcases hv : get_digits v with ⟨p1, p2, p3, o⟩
    show parse_opcode v = none ↔ o ∉ ([1, 2, 3, 4, 5, 6, 7, 8, 9, 99, 0] : List Int)
    simp only [parse_opcode, hv]
    constructor
    · intro hnone hmem
      fin_cases hmem <;> simp at hnone
    · intro hmem
      simp only [List.mem_cons, List.not_mem_nil, or_false] at hmem
      push_neg at hmem
      obtain ⟨h1, h2, h3, h4, h5, h6, h7, h8, h9, h99, h0⟩ := hmem
      rw [if_neg h1, if_neg h2, if_neg h3, if_neg h4, if_neg h5, if_neg h6,
        if_neg h7, if_neg h8, if_neg h9, if_neg h99, if_neg h0]
  · intro p1 p2 p3 o hv
    refine ⟨fun ho => by subst ho; simp [parse_opcode, hv],
      fun ho => by subst ho; simp [parse_opcode, hv],
      fun ho => by subst ho; simp [parse_opcode, hv],
      fun ho => by subst ho; simp [parse_opcode, hv],
      fun ho => by subst ho; simp [parse_opcode, hv],
      fun ho => by subst ho; simp [parse_opcode, hv],
      fun ho => by subst ho; simp [parse_opcode, hv],
      fun ho => by subst ho; simp [parse_opcode, hv],
      fun ho => by subst ho; simp [parse_opcode, hv],
      fun ho => by subst ho; simp [parse_opcode, hv],
      fun ho => by subst ho; simp [parse_opcode, hv]⟩

end Intcode

namespace Intcode

/-! ### Memory construction and access -/

/-- Looking up an address in the memory built by the construction loop:
addresses `i, …, i + cs.length - 1` hold the program values, every other
address falls through to the accumulator map. -/
theorem loadProg_lookup (cs : List Int) : ∀ (i : Int) (d : Mem) (a : Int),
    loadProg cs i d a =
      if i ≤ a ∧ a < i + cs.length then some (cs.getD (a - i).toNat 0) else d a := by
  induction cs with
  | nil =>
    intro i d a
    simp only [loadProg, List.length_nil]
    rw [if_neg (by omega)]
  | cons c cs ih =>
    intro i d a
    simp only [loadProg, List.length_cons]
    rw [ih (i + 1) (Mem.insert d i c) a]
    by_cases ha : a = i
    · subst ha
      rw [if_neg (by omega), if_pos (by omega)]
      simp [Mem.insert]
    · by_cases hin : i + 1 ≤ a ∧ a < i + 1 + cs.length
      · rw [if_pos hin, if_pos (by omega)]
        have : (a - i).toNat = (a - (i + 1)).toNat + 1 := by omega
        rw [this]
        simp
      · rw [if_neg hin, if_neg (by omega)]
        simp [Mem.insert, ha]

/-- C2 (amended): construction takes only the program; the machine's Memory
maps address i to program[i] for 0 ≤ i < N and is unset elsewhere, with
Position = 0, Relative Base = 0, running = true, empty output trace,
last-output = 0, has-outputted = false, and the input register (joystick)
initialized to 0 rather than to a caller-supplied value. -/
theorem new_initial_state (prog : List Int) :
    (Interpreter.new prog).position = 0 ∧
    (Interpreter.new prog).relative_base = 0 ∧
    (Interpreter.new prog).is_running = true ∧
    (Interpreter.new prog).outputs = [] ∧
    (Interpreter.new prog).last_output = 0 ∧
    (Interpreter.new prog).has_outputted = false ∧
    (Interpreter.new prog).joystick = 0 ∧
    (∀ a : Int, 0 ≤ a → a < prog.length →
      (Interpreter.new prog).codes a = some (prog.getD a.toNat 0)) ∧
    (∀ a : Int, a < 0 ∨ (prog.length : Int) ≤ a →
      (Interpreter.new prog).codes a = none) := by
  refine ⟨rfl, rfl, rfl, rfl, rfl, rfl, rfl, ?_, ?_⟩
  · intro a h0 hlt
    show loadProg prog 0 Mem.empty a = _
    rw [loadProg_lookup prog 0 Mem.empty a, if_pos (by omega)]
    norm_num
  · intro a hout
    show loadProg prog 0 Mem.empty a = none
    rw [loadProg_lookup prog 0 Mem.empty a, if_neg (by omega)]
    rfl

/-- C2 counterexample: the constructor accepts no input value; the machine
built from program `[99]` does not store a caller-supplied input 7 — its
input register is 0. -/
theorem new_takes_no_input_value :
    (Interpreter.new [99]).joystick ≠ 7 := by decide

end Intcode

namespace Intcode

/-- C6: `fetch` is total and pure by construction; it returns the value most
recently inserted at the address, 0 when the address was never inserted, and
0 beyond the constructed program. -/
theorem fetch_total (m : Interpreter) (a : Int) :
    (m.codes a = none → fetch m a = 0) ∧
    (∀ v, m.codes a = some v → fetch m a = v) ∧
    (∀ v, fetch { m with codes := m.codes.insert a v } a = v) ∧
    (∀ (b v : Int), b ≠ a →
      fetch { m with codes := m.codes.insert b v } a = fetch m a) ∧
    (∀ prog : List Int, a < 0 ∨ (prog.length : Int) ≤ a →
      fetch (Interpreter.new prog) a = 0) := by
  refine ⟨?_, ?_, ?_, ?_, ?_⟩
  · intro h; simp [fetch, h]
  · intro v h; simp [fetch, h]
  · intro v; simp [fetch, Mem.insert]
  · intro b v hba
    have : a ≠ b := fun h => hba h.symm
    simp [fetch, Mem.insert, this]
  · intro prog hout
    show ((loadProg prog 0 Mem.empty a).getD 0 : Int) = 0
    rw [loadProg_lookup prog 0 Mem.empty a, if_neg (by omega)]
    rfl

/-- Witness for C6 at the machine built from `[5]`: address 0 reads back 5,
the never-written address -1 reads 0. -/
theorem fetch_total_witness :
    fetch (Interpreter.new [5]) 0 = 5 ∧ fetch (Interpreter.new [5]) (-1) = 0 :=
  ⟨(fetch_total (Interpreter.new [5]) 0).2.1 5 (by decide),
   (fetch_total (Interpreter.new [5]) (-1)).1 (by decide)⟩

/-- C5: `put` in Position mode stores the value at the address stored at the
parameter address, in Relative mode at Relative Base plus that address, and
in Immediate mode aborts; no other machine field changes. -/
theorem put_modes (m : Interpreter) (pos data : Int) :
    (∃ m', put m pos data Mode.Position = some m' ∧
      fetch m' (fetch m pos) = data ∧
      (∀ a : Int, a ≠ fetch m pos → m'.codes a = m.codes a) ∧
      m'.position = m.position ∧ m'.is_running = m.is_running ∧
      m'.last_output = m.last_output ∧ m'.has_outputted = m.has_outputted ∧
      m'.relative_base = m.relative_base ∧ m'.joystick = m.joystick ∧
      m'.outputs = m.outputs) ∧
    (∃ m', put m pos data Mode.Relative = some m' ∧
      fetch m' (m.relative_base + fetch m pos) = data ∧
      (∀ a : Int, a ≠ m.relative_base + fetch m pos → m'.codes a = m.codes a) ∧
      m'.position = m.position ∧ m'.is_running = m.is_running ∧
      m'.last_output = m.last_output ∧ m'.has_outputted = m.has_outputted ∧
      m'.relative_base = m.relative_base ∧ m'.joystick = m.joystick ∧
      m'.outputs = m.outputs) ∧
    put m pos data Mode.Immediate = none := by
  refine ⟨⟨_, rfl, ?_, ?_, rfl, rfl, rfl, rfl, rfl, rfl, rfl⟩,
    ⟨_, rfl, ?_, ?_, rfl, rfl, rfl, rfl, rfl, rfl, rfl⟩, rfl⟩
  · simp [fetch, Mem.insert]
  · intro a ha; simp [Mem.insert, ha]
  · simp [fetch, Mem.insert]
  · intro a ha; simp [Mem.insert, ha]

end Intcode

namespace Intcode

/-! ### Equation lemmas for `step`, one per decoded instruction -/

theorem step_eq_none (m : Interpreter)
    (h : parse_opcode (fetch m m.position) = none) : step m = none := by
  unfold step; rw [h]

theorem step_eq_halt (m : Interpreter)
    (h : parse_opcode (fetch m m.position) = some OpCode.Halt) :
    step m = some { m with is_running := false } := by
  unfold step; rw [h]; rfl

theorem step_eq_add (m : Interpreter) (p1 p2 p3 : Mode)
    (h : parse_opcode (fetch m m.position) = some (OpCode.Add p1 p2 p3)) :
    step m = (put m (m.position + 3)
        (get_operand m (m.position + 1) p1 + get_operand m (m.position + 2) p2)
        p3).map (fun m' => { m' with position := m'.position + 4 }) := by
  unfold step; rw [h]; rfl

theorem step_eq_mul (m : Interpreter) (p1 p2 p3 : Mode)
    (h : parse_opcode (fetch m m.position) = some (OpCode.Multiply p1 p2 p3)) :
    step m = (put m (m.position + 3)
        (get_operand m (m.position + 1) p1 * get_operand m (m.position + 2) p2)
        p3).map (fun m' => { m' with position := m'.position + 4 }) := by
  unfold step; rw [h]; rfl

theorem step_eq_input (m : Interpreter) (p1 : Mode)
    (h : parse_opcode (fetch m m.position) = some (OpCode.Input p1)) :
    step m = (put m (m.position + 1) m.joystick p1).map
      (fun m' => { m' with position := m'.position + 2 }) := by
  unfold step; rw [h]; rfl

theorem step_eq_output (m : Interpreter) (p1 : Mode)
    (h : parse_opcode (fetch m m.position) = some (OpCode.Output p1)) :
    step m = some { m with
      last_output := get_operand m (m.position + 1) p1,
      has_outputted := true,
      outputs := m.outputs ++ [get_operand m (m.position + 1) p1],
      position := m.position + 2 } := by
  unfold step; rw [h]; rfl

theorem step_eq_jit (m : Interpreter) (p1 p2 : Mode)
    (h : parse_opcode (fetch m m.position) = some (OpCode.JumpIfTrue p1 p2)) :
    step m = (if get_operand m (m.position + 1) p1 ≠ 0
      then some { m with position := get_operand m (m.position + 2) p2 }
      else some { m with position := m.position + 3 }) := by
  unfold step; rw [h]; rfl

theorem step_eq_jif (m : Interpreter) (p1 p2 : Mode)
    (h : parse_opcode (fetch m m.position) = some (OpCode.JumpIfFalse p1 p2)) :
    step m = (if get_operand m (m.position + 1) p1 = 0
      then some { m with position := get_operand m (m.position + 2) p2 }
      else some { m with position := m.position + 3 }) := by
  unfold step; rw [h]; rfl

theorem step_eq_lt (m : Interpreter) (p1 p2 p3 : Mode)
    (h : parse_opcode (fetch m m.position) = some (OpCode.LessThan p1 p2 p3)) :
    step m = ((if get_operand m (m.position + 1) p1 < get_operand m (m.position + 2) p2
      then put m (m.position + 3) 1 p3
      else put m (m.position + 3) 0 p3).map
        (fun m' => { m' with position := m'.position + 4 })) := by
  unfold step; rw [h]; rfl

theorem step_eq_eq (m : Interpreter) (p1 p2 p3 : Mode)
    (h : parse_opcode (fetch m m.position) = some (OpCode.Equals p1 p2 p3)) :
    step m = ((if get_operand m (m.position + 1) p1 = get_operand m (m.position + 2) p2
      then put m (m.position + 3) 1 p3
      else put m (m.position + 3) 0 p3).map
        (fun m' => { m' with position := m'.position + 4 })) := by
  unfold step; rw [h]; rfl

theorem step_eq_adjust (m : Interpreter) (p1 : Mode)
    (h : parse_opcode (fetch m m.position) = some (OpCode.AdjustBase p1)) :
    step m = some { m with
      relative_base := m.relative_base + get_operand m (m.position + 1) p1,
      position := m.position + 2 } := by
  unfold step; rw [h]; rfl

theorem step_eq_noop (m : Interpreter)
    (h : parse_opcode (fetch m m.position) = some OpCode.Noop) :
    step m = some { m with position := m.position + 1 } := by
  unfold step; rw [h]; rfl

end Intcode

namespace Intcode

/-! ### Single-step frame properties -/

/-- C7: when the instruction at Position decodes to Halt, `step` clears the
running flag and changes nothing else: the resulting machine is the input
machine with only `is_running` set to false (Memory, Position, Relative Base,
output trace, last-output and has-outputted untouched). -/
theorem halt_step_frame (m : Interpreter)
    (h : parse_opcode (fetch m m.position) = some OpCode.Halt) :
    step m = some { m with is_running := false } :=
  step_eq_halt m h

/-- Witness for C7: a machine whose first instruction is 99. -/
theorem halt_step_frame_witness :
    step (Interpreter.new [99]) =
      some { Interpreter.new [99] with is_running := false } :=
  halt_step_frame (Interpreter.new [99]) (by decide)

/-- C8: when the instruction at Position decodes to Output, `step` leaves
Memory, Relative Base and the running flag unchanged, appends the resolved
operand to the output trace, records it in last-output, sets has-outputted,
and advances Position by exactly 2. -/
theorem output_step_frame (m : Interpreter) (md : Mode)
    (h : parse_opcode (fetch m m.position) = some (OpCode.Output md)) :
    step m = some { m with
      last_output := get_operand m (m.position + 1) md,
      has_outputted := true,
      outputs := m.outputs ++ [get_operand m (m.position + 1) md],
      position := m.position + 2 } :=
  step_eq_output m md h

/-- Witness for C8: a machine whose first instruction is 104 (Output in
Immediate mode). -/
theorem output_step_frame_witness :
    step (Interpreter.new [104, 7, 99]) =
      some { Interpreter.new [104, 7, 99] with
        last_output := get_operand (Interpreter.new [104, 7, 99])
          ((Interpreter.new [104, 7, 99]).position + 1) Mode.Immediate,
        has_outputted := true,
        outputs := (Interpreter.new [104, 7, 99]).outputs ++
          [get_operand (Interpreter.new [104, 7, 99])
            ((Interpreter.new [104, 7, 99]).position + 1) Mode.Immediate],
        position := (Interpreter.new [104, 7, 99]).position + 2 } :=
  output_step_frame (Interpreter.new [104, 7, 99]) Mode.Immediate (by decide)

/-- A successful `step` never turns the running flag on: it either clears it
(Halt) or leaves it unchanged. -/
theorem step_running_le (m m' : Interpreter) (h : step m = some m') :
    m'.is_running = false ∨ m'.is_running = m.is_running := by
  rcases hop : parse_opcode (fetch m m.position) with _ | op
  · rw [step_eq_none m hop] at h
    exact absurd h (by simp)
  cases op with
  | Halt =>
      rw [step_eq_halt m hop] at h
      injection h with h
      subst h
      left; rfl
  | Add p1 p2 p3 =>
      rw [step_eq_add m p1 p2 p3 hop] at h
      cases p3 <;>
        simp only [put, Option.map_some', Option.map_none', Option.some.injEq] at h <;>
        first
          | (subst h; right; rfl)
          | exact absurd h (by simp)
  | Multiply p1 p2 p3 =>
      rw [step_eq_mul m p1 p2 p3 hop] at h
      cases p3 <;>
        simp only [put, Option.map_some', Option.map_none', Option.some.injEq] at h <;>
        first
          | (subst h; right; rfl)
          | exact absurd h (by simp)
  | Input p1 =>
      rw [step_eq_input m p1 hop] at h
      cases p1 <;>
        simp only [put, Option.map_some', Option.map_none', Option.some.injEq] at h <;>
        first
          | (subst h; right; rfl)
          | exact absurd h (by simp)
  | Output p1 =>
      rw [step_eq_output m p1 hop] at h
      injection h with h
      subst h
      right; rfl
  | JumpIfTrue p1 p2 =>
      rw [step_eq_jit m p1 p2 hop] at h
      split at h <;> (injection h with h; subst h; right; rfl)
  | JumpIfFalse p1 p2 =>
      rw [step_eq_jif m p1 p2 hop] at h
      split at h <;> (injection h with h; subst h; right; rfl)
  | LessThan p1 p2 p3 =>
      rw [step_eq_lt m p1 p2 p3 hop] at h
      split at h <;>
        (cases p3 <;>
          simp only [put, Option.map_some', Option.map_none', Option.some.injEq] at h <;>
          first
            | (subst h; right; rfl)
            | exact absurd h (by simp))
  | Equals p1 p2 p3 =>
      rw [step_eq_eq m p1 p2 p3 hop] at h
      split at h <;>
        (cases p3 <;>
          simp only [put, Option.map_some', Option.map_none', Option.some.injEq] at h <;>
          first
            | (subst h; right; rfl)
            | exact absurd h (by simp))
  | AdjustBase p1 =>
      rw [step_eq_adjust m p1 hop] at h
      injection h with h
      subst h
      right; rfl
  | Noop =>
      rw [step_eq_noop m hop] at h
      injection h with h
      subst h
      right; rfl

/-- C9: `step` never revives a halted machine: when the running flag is
false, it is still false after any number of successful steps. -/
theorem halted_stays_halted (n : Nat) (m m' : Interpreter)
    (h : m.is_running = false) (hs : stepN n m = some m') :
    m'.is_running = false := by
  induction n generalizing m with
  | zero =>
      injection hs with hs
      subst hs
      exact h
  | succ k ih =>
      rcases ho : step m with _ | m1
      · rw [show stepN (k + 1) m = (step m).bind (stepN k) from rfl, ho] at hs
        exact absurd hs (by simp)
      · rw [show stepN (k + 1) m = (step m).bind (stepN k) from rfl, ho] at hs
        rcases step_running_le m m1 ho with h1 | h1
        · exact ih m1 h1 hs
        · exact ih m1 (h1.trans h) hs

/-- Witness for C9: one step of a halted machine whose program is the single
instruction 0 (Noop). -/
theorem halted_stays_halted_witness :
    ({ Interpreter.new [0] with is_running := false, position := 1 }
      : Interpreter).is_running = false :=
  halted_stays_halted 1 { Interpreter.new [0] with is_running := false }
    { Interpreter.new [0] with is_running := false, position := 1 } rfl rfl

end Intcode

namespace Intcode

/-! ### The executed instructions do not depend on the joystick register
unless an Input instruction runs -/

/-- Replace the joystick (input) register. -/
def setJ (m : Interpreter) (j : Int) : Interpreter := { m with joystick := j }

/-- Instrumented step: refuses (with `none`) to execute an Input
instruction, otherwise behaves exactly like `step`. -/
def stepNI (m : Interpreter) : Option Interpreter :=
  match parse_opcode (fetch m m.position) with
  | some (OpCode.Input _) => none
  | _ => step m

/-- Iterate `stepNI`. -/
def runNI : Nat → Interpreter → Option Interpreter
  | 0, m => some m
  | n + 1, m => (stepNI m).bind (runNI n)

theorem setJ_position (m : Interpreter) (j : Int) :
    (setJ m j).position = m.position := rfl

theorem setJ_get_operand (m : Interpreter) (j p : Int) (md : Mode) :
    get_operand (setJ m j) p md = get_operand m p md := by
  cases md <;> rfl

theorem setJ_put (m : Interpreter) (j p d : Int) (md : Mode) :
    put (setJ m j) p d md = (put m p d md).map (fun x => setJ x j) := by
  cases md <;> rfl

/-- A non-Input step commutes with replacing the joystick register. -/
theorem step_setJ (m : Interpreter) (j : Int) (m' : Interpreter)
    (h : stepNI m = some m') : step (setJ m j) = some (setJ m' j) := by
  rcases hop : parse_opcode (fetch m m.position) with _ | op
  · simp only [stepNI, hop] at h
    rw [step_eq_none m hop] at h
    exact absurd h (by simp)
  have hop' : parse_opcode (fetch (setJ m j) (setJ m j).position) = some op := hop
  cases op with
  | Input p1 =>
      simp only [stepNI, hop] at h
      exact absurd h (by simp)
  | Halt =>
      simp only [stepNI, hop] at h
      rw [step_eq_halt m hop] at h
      injection h with h
      subst h
      rw [step_eq_halt (setJ m j) hop']
      rfl
  | Noop =>
      simp only [stepNI, hop] at h
      rw [step_eq_noop m hop] at h
      injection h with h
      subst h
      rw [step_eq_noop (setJ m j) hop']
      rfl
  | Output p1 =>
      simp only [stepNI, hop] at h
      rw [step_eq_output m p1 hop] at h
      injection h with h
      subst h
      rw [step_eq_output (setJ m j) p1 hop']
      simp only [setJ_get_operand, setJ_position]
      rfl
  | AdjustBase p1 =>
      simp only [stepNI, hop] at h
      rw [step_eq_adjust m p1 hop] at h
      injection h with h
      subst h
      rw [step_eq_adjust (setJ m j) p1 hop']
      simp only [setJ_get_operand, setJ_position]
      rfl
  | Add p1 p2 p3 =>
      simp only [stepNI, hop] at h
      rw [step_eq_add m p1 p2 p3 hop] at h
      rw [step_eq_add (setJ m j) p1 p2 p3 hop']
      simp only [setJ_get_operand, setJ_put, setJ_position]
      rcases hput : put m (m.position + 3)
          (get_operand m (m.position + 1) p1 + get_operand m (m.position + 2) p2)
          p3 with _ | x
      · rw [hput] at h
        exact absurd h (by simp)
      · rw [hput] at h
        simp only [Option.map_some', Option.some.injEq] at h
        subst h
        rfl
  | Multiply p1 p2 p3 =>
      simp only [stepNI, hop] at h
      rw [step_eq_mul m p1 p2 p3 hop] at h
      rw [step_eq_mul (setJ m j) p1 p2 p3 hop']
      simp only [setJ_get_operand, setJ_put, setJ_position]
      rcases hput : put m (m.position + 3)
          (get_operand m (m.position + 1) p1 * get_operand m (m.position + 2) p2)
          p3 with _ | x
      · rw [hput] at h
        exact absurd h (by simp)
      · rw [hput] at h
        simp only [Option.map_some', Option.some.injEq] at h
        subst h
        rfl
  | JumpIfTrue p1 p2 =>
      simp only [stepNI, hop] at h
      rw [step_eq_jit m p1 p2 hop] at h
      rw [step_eq_jit (setJ m j) p1 p2 hop']
      simp only [setJ_get_operand, setJ_position]
      split at h
      · rename_i hc
        rw [if_pos hc]
        injection h with h
        subst h
        rfl
      · rename_i hc
        rw [if_neg hc]
        injection h with h
        subst h
        rfl
  | JumpIfFalse p1 p2 =>
      simp only [stepNI, hop] at h
      rw [step_eq_jif m p1 p2 hop] at h
      rw [step_eq_jif (setJ m j) p1 p2 hop']
      simp only [setJ_get_operand, setJ_position]
      split at h
      · rename_i hc
        rw [if_pos hc]
        injection h with h
        subst h
        rfl
      · rename_i hc
        rw [if_neg hc]
        injection h with h
        subst h
        rfl
  | LessThan p1 p2 p3 =>
      simp only [stepNI, hop] at h
      rw [step_eq_lt m p1 p2 p3 hop] at h
      rw [step_eq_lt (setJ m j) p1 p2 p3 hop']
      simp only [setJ_get_operand, setJ_put, setJ_position]
      split at h
      · rename_i hc
        rw [if_pos hc]
        rcases hput : put m (m.position + 3) 1 p3 with _ | x
        · rw [hput] at h
          exact absurd h (by simp)
        · rw [hput] at h
          simp only [Option.map_some', Option.some.injEq] at h
          subst h
          rfl
      · rename_i hc
        rw [if_neg hc]
        rcases hput : put m (m.position + 3) 0 p3 with _ | x
        · rw [hput] at h
          exact absurd h (by simp)
        · rw [hput] at h
          simp only [Option.map_some', Option.some.injEq] at h
          subst h
          rfl
  | Equals p1 p2 p3 =>
      simp only [stepNI, hop] at h
      rw [step_eq_eq m p1 p2 p3 hop] at h
      rw [step_eq_eq (setJ m j) p1 p2 p3 hop']
      simp only [setJ_get_operand, setJ_position]
      split at h
      · rename_i hc
        rw [if_pos hc]
        rw [setJ_put]
        rcases hput : put m (m.position + 3) 1 p3 with _ | x
        · rw [hput] at h
          exact absurd h (by simp)
        · rw [hput] at h
          simp only [Option.map_some', Option.some.injEq] at h
          subst h
          rfl
      · rename_i hc
        rw [if_neg hc]
        rw [setJ_put]
        rcases hput : put m (m.position + 3) 0 p3 with _ | x
        · rw [hput] at h
          exact absurd h (by simp)
        · rw [hput] at h
          simp only [Option.map_some', Option.some.injEq] at h
          subst h
          rfl

/-- A run that never executes Input commutes with replacing the joystick. -/
theorem runNI_setJ (n : Nat) : ∀ (m r : Interpreter) (j : Int),
    runNI n m = some r → stepN n (setJ m j) = some (setJ r j) := by
  induction n with
  | zero =>
      intro m r j h
      injection h with h
      subst h
      rfl
  | succ k ih =>
      intro m r j h
      rcases hsi : stepNI m with _ | m1
      · rw [show runNI (k + 1) m = (stepNI m).bind (runNI k) from rfl, hsi] at h
        exact absurd h (by simp)
      · rw [show runNI (k + 1) m = (stepNI m).bind (runNI k) from rfl, hsi] at h
        rw [show stepN (k + 1) (setJ m j) = (step (setJ m j)).bind (stepN k) from rfl,
          step_setJ m j m1 hsi]
        exact ih m1 r j h

end Intcode

namespace Intcode

/-- The relative-mode quine test program of the specification (scenario D). -/
def quineProgram : List Int :=
  [109, 1, 204, -1, 1001, 100, 1, 100, 1008, 100, 16, 101, 1006, 101, 0, 99]

/-- Memory during the quine run: the loaded program followed by a
chronological list of later writes. -/
def quineMem (ws : List (Int × Int)) : Mem :=
  ws.foldl (fun d p => Mem.insert d p.1 p.2) (loadProg quineProgram 0 Mem.empty)

/-- An intermediate machine state of the quine run. -/
def qState (ws : List (Int × Int)) (pos rb lo : Int) (ho run : Bool)
    (out : List Int) : Interpreter where
  codes := quineMem ws
  position := pos
  is_running := run
  last_output := lo
  has_outputted := ho
  relative_base := rb
  joystick := 0
  outputs := out

theorem runNI_cons (n : Nat) (m m1 r : Interpreter) (h1 : stepNI m = some m1)
    (h2 : runNI n m1 = some r) : runNI (n + 1) m = some r := by
  rw [show runNI (n + 1) m = (stepNI m).bind (runNI n) from rfl, h1]
  exact h2

set_option maxHeartbeats 8000000 in
/-- The quine run, step by step: 81 non-Input steps take the freshly built
machine to a halted state whose output trace is the program itself. -/
theorem quine_run_concrete :
    runNI 81 (Interpreter.new quineProgram) =
      some (qState [(100, 1), (101, 0), (100, 2), (101, 0), (100, 3), (101, 0), (100, 4), (101, 0), (100, 5), (101, 0), (100, 6), (101, 0), (100, 7), (101, 0), (100, 8), (101, 0), (100, 9), (101, 0), (100, 10), (101, 0), (100, 11), (101, 0), (100, 12), (101, 0), (100, 13), (101, 0), (100, 14), (101, 0), (100, 15), (101, 0), (100, 16), (101, 1)] 15 16 99 true false [109, 1, 204, -1, 1001, 100, 1, 100, 1008, 100, 16, 101, 1006, 101, 0, 99]) := by
  have s0 : stepNI (qState [] 0 0 0 false true []) =
      some (qState [] 2 1 0 false true []) := by rfl
  have s1 : stepNI (qState [] 2 1 0 false true []) =
      some (qState [] 4 1 109 true true [109]) := by rfl
  have s2 : stepNI (qState [] 4 1 109 true true [109]) =
      some (qState [(100, 1)] 8 1 109 true true [109]) := by rfl
  have s3 : stepNI (qState [(100, 1)] 8 1 109 true true [109]) =
      some (qState [(100, 1), (101, 0)] 12 1 109 true true [109]) := by rfl
  have s4 : stepNI (qState [(100, 1), (101, 0)] 12 1 109 true true [109]) =
      some (qState [(100, 1), (101, 0)] 0 1 109 true true [109]) := by rfl
  have s5 : stepNI (qState [(100, 1), (101, 0)] 0 1 109 true true [109]) =
      some (qState [(100, 1), (101, 0)] 2 2 109 true true [109]) := by rfl
  have s6 : stepNI (qState [(100, 1), (101, 0)] 2 2 109 true true [109]) =
      some (qState [(100, 1), (101, 0)] 4 2 1 true true [109, 1]) := by rfl
  have s7 : stepNI (qState [(100, 1), (101, 0)] 4 2 1 true true [109, 1]) =
      some (qState [(100, 1), (101, 0), (100, 2)] 8 2 1 true true [109, 1]) := by rfl
  have s8 : stepNI (qState [(100, 1), (101, 0), (100, 2)] 8 2 1 true true [109, 1]) =
      some (qState [(100, 1), (101, 0), (100, 2), (101, 0)] 12 2 1 true true [109, 1]) := by rfl
  have s9 : stepNI (qState [(100, 1), (101, 0), (100, 2), (101, 0)] 12 2 1 true true [109, 1]) =
      some (qState [(100, 1), (101, 0), (100, 2), (101, 0)] 0 2 1 true true [109, 1]) := by rfl
  have s10 : stepNI (qState [(100, 1), (101, 0), (100, 2), (101, 0)] 0 2 1 true true [109, 1]) =
      some (qState [(100, 1), (101, 0), (100, 2), (101, 0)] 2 3 1 true true [109, 1]) := by rfl
  have s11 : stepNI (qState [(100, 1), (101, 0), (100, 2), (101, 0)] 2 3 1 true true [109, 1]) =
      some (qState [(100, 1), (101, 0), (100, 2), (101, 0)] 4 3 204 true true [109, 1, 204]) := by rfl
  have s12 : stepNI (qState [(100, 1), (101, 0), (100, 2), (101, 0)] 4 3 204 true true [109, 1, 204]) =
      some (qState [(100, 1), (101, 0), (100, 2), (101, 0), (100, 3)] 8 3 204 true true [109, 1, 204]) := by rfl
  have s13 : stepNI (qState [(100, 1), (101, 0), (100, 2), (101, 0), (100, 3)] 8 3 204 true true [109, 1, 204]) =
      some (qState [(100, 1), (101, 0), (100, 2), (101, 0), (100, 3), (101, 0)] 12 3 204 true true [109, 1, 204]) := by rfl
  have s14 : stepNI (qState [(100, 1), (101, 0), (100, 2), (101, 0), (100, 3), (101, 0)] 12 3 204 true true [109, 1, 204]) =
      some (qState [(100, 1), (101, 0), (100, 2), (101, 0), (100, 3), (101, 0)] 0 3 204 true true [109, 1, 204]) := by rfl
  have s15 : stepNI (qState [(100, 1), (101, 0), (100, 2), (101, 0), (100, 3), (101, 0)] 0 3 204 true true [109, 1, 204]) =
      some (qState [(100, 1), (101, 0), (100, 2), (101, 0), (100, 3), (101, 0)] 2 4 204 true true [109, 1, 204]) := by rfl
  have s16 : stepNI (qState [(100, 1), (101, 0), (100, 2), (101, 0), (100, 3), (101, 0)] 2 4 204 true true [109, 1, 204]) =
      some (qState [(100, 1), (101, 0), (100, 2), (101, 0), (100, 3), (101, 0)] 4 4 (-1) true true [109, 1, 204, -1]) := by rfl
  have s17 : stepNI (qState [(100, 1), (101, 0), (100, 2), (101, 0), (100, 3), (101, 0)] 4 4 (-1) true true [109, 1, 204, -1]) =
      some (qState [(100, 1), (101, 0), (100, 2), (101, 0), (100, 3), (101, 0), (100, 4)] 8 4 (-1) true true [109, 1, 204, -1]) := by rfl
  have s18 : stepNI (qState [(100, 1), (101, 0), (100, 2), (101, 0), (100, 3), (101, 0), (100, 4)] 8 4 (-1) true true [109, 1, 204, -1]) =
      some (qState [(100, 1), (101, 0), (100, 2), (101, 0), (100, 3), (101, 0), (100, 4), (101, 0)] 12 4 (-1) true true [109, 1, 204, -1]) := by rfl
  have s19 : stepNI (qState [(100, 1), (101, 0), (100, 2), (101, 0), (100, 3), (101, 0), (100, 4), (101, 0)] 12 4 (-1) true true [109, 1, 204, -1]) =
      some (qState [(100, 1), (101, 0), (100, 2), (101, 0), (100, 3), (101, 0), (100, 4), (101, 0)] 0 4 (-1) true true [109, 1, 204, -1]) := by rfl
  have s20 : stepNI (qState [(100, 1), (101, 0), (100, 2), (101, 0), (100, 3), (101, 0), (100, 4), (101, 0)] 0 4 (-1) true true [109, 1, 204, -1]) =
      some (qState [(100, 1), (101, 0), (100, 2), (101, 0), (100, 3), (101, 0), (100, 4), (101, 0)] 2 5 (-1) true true [109, 1, 204, -1]) := by rfl
  have s21 : stepNI (qState [(100, 1), (101, 0), (100, 2), (101, 0), (100, 3), (101, 0), (100, 4), (101, 0)] 2 5 (-1) true true [109, 1, 204, -1]) =
      some (qState [(100, 1), (101, 0), (100, 2), (101, 0), (100, 3), (101, 0), (100, 4), (101, 0)] 4 5 1001 true true [109, 1, 204, -1, 1001]) := by rfl
  have s22 : stepNI (qState [(100, 1), (101, 0), (100, 2), (101, 0), (100, 3), (101, 0), (100, 4), (101, 0)] 4 5 1001 true true [109, 1, 204, -1, 1001]) =
      some (qState [(100, 1), (101, 0), (100, 2), (101, 0), (100, 3), (101, 0), (100, 4), (101, 0), (100, 5)] 8 5 1001 true true [109, 1, 204, -1, 1001]) := by rfl
  have s23 : stepNI (qState [(100, 1), (101, 0), (100, 2), (101, 0), (100, 3), (101, 0), (100, 4), (101, 0), (100, 5)] 8 5 1001 true true [109, 1, 204, -1, 1001]) =
      some (qState [(100, 1), (101, 0), (100, 2), (101, 0), (100, 3), (101, 0), (100, 4), (101, 0), (100, 5), (101, 0)] 12 5 1001 true true [109, 1, 204, -1, 1001]) := by rfl
  have s24 : stepNI (qState [(100, 1), (101, 0), (100, 2), (101, 0), (100, 3), (101, 0), (100, 4), (101, 0), (100, 5), (101, 0)] 12 5 1001 true true [109, 1, 204, -1, 1001]) =
      some (qState [(100, 1), (101, 0), (100, 2), (101, 0), (100, 3), (101, 0), (100, 4), (101, 0), (100, 5), (101, 0)] 0 5 1001 true true [109, 1, 204, -1, 1001]) := by rfl
  have s25 : stepNI (qState [(100, 1), (101, 0), (100, 2), (101, 0), (100, 3), (101, 0), (100, 4), (101, 0), (100, 5), (101, 0)] 0 5 1001 true true [109, 1, 204, -1, 1001]) =
      some (qState [(100, 1), (101, 0), (100, 2), (101, 0), (100, 3), (101, 0), (100, 4), (101, 0), (100, 5), (101, 0)] 2 6 1001 true true [109, 1, 204, -1, 1001]) := by rfl
  have s26 : stepNI (qState [(100, 1), (101, 0), (100, 2), (101, 0), (100, 3), (101, 0), (100, 4), (101, 0), (100, 5), (101, 0)] 2 6 1001 true true [109, 1, 204, -1, 1001]) =
      some (qState [(100, 1), (101, 0), (100, 2), (101, 0), (100, 3), (101, 0), (100, 4), (101, 0), (100, 5), (101, 0)] 4 6 100 true true [109, 1, 204, -1, 1001, 100]) := by rfl
  have s27 : stepNI (qState [(100, 1), (101, 0), (100, 2), (101, 0), (100, 3), (101, 0), (100, 4), (101, 0), (100, 5), (101, 0)] 4 6 100 true true [109, 1, 204, -1, 1001, 100]) =
      some (qState [(100, 1), (101, 0), (100, 2), (101, 0), (100, 3), (101, 0), (100, 4), (101, 0), (100, 5), (101, 0), (100, 6)] 8 6 100 true true [109, 1, 204, -1, 1001, 100]) := by rfl
  have s28 : stepNI (qState [(100, 1), (101, 0), (100, 2), (101, 0), (100, 3), (101, 0), (100, 4), (101, 0), (100, 5), (101, 0), (100, 6)] 8 6 100 true true [109, 1, 204, -1, 1001, 100]) =
      some (qState [(100, 1), (101, 0), (100, 2), (101, 0), (100, 3), (101, 0), (100, 4), (101, 0), (100, 5), (101, 0), (100, 6), (101, 0)] 12 6 100 true true [109, 1, 204, -1, 1001, 100]) := by rfl
  have s29 : stepNI (qState [(100, 1), (101, 0), (100, 2), (101, 0), (100, 3), (101, 0), (100, 4), (101, 0), (100, 5), (101, 0), (100, 6), (101, 0)] 12 6 100 true true [109, 1, 204, -1, 1001, 100]) =
      some (qState [(100, 1), (101, 0), (100, 2), (101, 0), (100, 3), (101, 0), (100, 4), (101, 0), (100, 5), (101, 0), (100, 6), (101, 0)] 0 6 100 true true [109, 1, 204, -1, 1001, 100]) := by rfl
  have s30 : stepNI (qState [(100, 1), (101, 0), (100, 2), (101, 0), (100, 3), (101, 0), (100, 4), (101, 0), (100, 5), (101, 0), (100, 6), (101, 0)] 0 6 100 true true [109, 1, 204, -1, 1001, 100]) =
      some (qState [(100, 1), (101, 0), (100, 2), (101, 0), (100, 3), (101, 0), (100, 4), (101, 0), (100, 5), (101, 0), (100, 6), (101, 0)] 2 7 100 true true [109, 1, 204, -1, 1001, 100]) := by rfl
  have s31 : stepNI (qState [(100, 1), (101, 0), (100, 2), (101, 0), (100, 3), (101, 0), (100, 4), (101, 0), (100, 5), (101, 0), (100, 6), (101, 0)] 2 7 100 true true [109, 1, 204, -1, 1001, 100]) =
      some (qState [(100, 1), (101, 0), (100, 2), (101, 0), (100, 3), (101, 0), (100, 4), (101, 0), (100, 5), (101, 0), (100, 6), (101, 0)] 4 7 1 true true [109, 1, 204, -1, 1001, 100, 1]) := by rfl
  have s32 : stepNI (qState [(100, 1), (101, 0), (100, 2), (101, 0), (100, 3), (101, 0), (100, 4), (101, 0), (100, 5), (101, 0), (100, 6), (101, 0)] 4 7 1 true true [109, 1, 204, -1, 1001, 100, 1]) =
      some (qState [(100, 1), (101, 0), (100, 2), (101, 0), (100, 3), (101, 0), (100, 4), (101, 0), (100, 5), (101, 0), (100, 6), (101, 0), (100, 7)] 8 7 1 true true [109, 1, 204, -1, 1001, 100, 1]) := by rfl
  have s33 : stepNI (qState [(100, 1), (101, 0), (100, 2), (101, 0), (100, 3), (101, 0), (100, 4), (101, 0), (100, 5), (101, 0), (100, 6), (101, 0), (100, 7)] 8 7 1 true true [109, 1, 204, -1, 1001, 100, 1]) =
      some (qState [(100, 1), (101, 0), (100, 2), (101, 0), (100, 3), (101, 0), (100, 4), (101, 0), (100, 5), (101, 0), (100, 6), (101, 0), (100, 7), (101, 0)] 12 7 1 true true [109, 1, 204, -1, 1001, 100, 1]) := by rfl
  have s34 : stepNI (qState [(100, 1), (101, 0), (100, 2), (101, 0), (100, 3), (101, 0), (100, 4), (101, 0), (100, 5), (101, 0), (100, 6), (101, 0), (100, 7), (101, 0)] 12 7 1 true true [109, 1, 204, -1, 1001, 100, 1]) =
      some (qState [(100, 1), (101, 0), (100, 2), (101, 0), (100, 3), (101, 0), (100, 4), (101, 0), (100, 5), (101, 0), (100, 6), (101, 0), (100, 7), (101, 0)] 0 7 1 true true [109, 1, 204, -1, 1001, 100, 1]) := by rfl
  have s35 : stepNI (qState [(100, 1), (101, 0), (100, 2), (101, 0), (100, 3), (101, 0), (100, 4), (101, 0), (100, 5), (101, 0), (100, 6), (101, 0), (100, 7), (101, 0)] 0 7 1 true true [109, 1, 204, -1, 1001, 100, 1]) =
      some (qState [(100, 1), (101, 0), (100, 2), (101, 0), (100, 3), (101, 0), (100, 4), (101, 0), (100, 5), (101, 0), (100, 6), (101, 0), (100, 7), (101, 0)] 2 8 1 true true [109, 1, 204, -1, 1001, 100, 1]) := by rfl
  have s36 : stepNI (qState [(100, 1), (101, 0), (100, 2), (101, 0), (100, 3), (101, 0), (100, 4), (101, 0), (100, 5), (101, 0), (100, 6), (101, 0), (100, 7), (101, 0)] 2 8 1 true true [109, 1, 204, -1, 1001, 100, 1]) =
      some (qState [(100, 1), (101, 0), (100, 2), (101, 0), (100, 3), (101, 0), (100, 4), (101, 0), (100, 5), (101, 0), (100, 6), (101, 0), (100, 7), (101, 0)] 4 8 100 true true [109, 1, 204, -1, 1001, 100, 1, 100]) := by rfl
  have s37 : stepNI (qState [(100, 1), (101, 0), (100, 2), (101, 0), (100, 3), (101, 0), (100, 4), (101, 0), (100, 5), (101, 0), (100, 6), (101, 0), (100, 7), (101, 0)] 4 8 100 true true [109, 1, 204, -1, 1001, 100, 1, 100]) =
      some (qState [(100, 1), (101, 0), (100, 2), (101, 0), (100, 3), (101, 0), (100, 4), (101, 0), (100, 5), (101, 0), (100, 6), (101, 0), (100, 7), (101, 0), (100, 8)] 8 8 100 true true [109, 1, 204, -1, 1001, 100, 1, 100]) := by rfl
  have s38 : stepNI (qState [(100, 1), (101, 0), (100, 2), (101, 0), (100, 3), (101, 0), (100, 4), (101, 0), (100, 5), (101, 0), (100, 6), (101, 0), (100, 7), (101, 0), (100, 8)] 8 8 100 true true [109, 1, 204, -1, 1001, 100, 1, 100]) =
      some (qState [(100, 1), (101, 0), (100, 2), (101, 0), (100, 3), (101, 0), (100, 4), (101, 0), (100, 5), (101, 0), (100, 6), (101, 0), (100, 7), (101, 0), (100, 8), (101, 0)] 12 8 100 true true [109, 1, 204, -1, 1001, 100, 1, 100]) := by rfl
  have s39 : stepNI (qState [(100, 1), (101, 0), (100, 2), (101, 0), (100, 3), (101, 0), (100, 4), (101, 0), (100, 5), (101, 0), (100, 6), (101, 0), (100, 7), (101, 0), (100, 8), (101, 0)] 12 8 100 true true [109, 1, 204, -1, 1001, 100, 1, 100]) =
      some (qState [(100, 1), (101, 0), (100, 2), (101, 0), (100, 3), (101, 0), (100, 4), (101, 0), (100, 5), (101, 0), (100, 6), (101, 0), (100, 7), (101, 0), (100, 8), (101, 0)] 0 8 100 true true [109, 1, 204, -1, 1001, 100, 1, 100]) := by rfl
  have s40 : stepNI (qState [(100, 1), (101, 0), (100, 2), (101, 0), (100, 3), (101, 0), (100, 4), (101, 0), (100, 5), (101, 0), (100, 6), (101, 0), (100, 7), (101, 0), (100, 8), (101, 0)] 0 8 100 true true [109, 1, 204, -1, 1001, 100, 1, 100]) =
      some (qState [(100, 1), (101, 0), (100, 2), (101, 0), (100, 3), (101, 0), (100, 4), (101, 0), (100, 5), (101, 0), (100, 6), (101, 0), (100, 7), (101, 0), (100, 8), (101, 0)] 2 9 100 true true [109, 1, 204, -1, 1001, 100, 1, 100]) := by rfl
  have s41 : stepNI (qState [(100, 1), (101, 0), (100, 2), (101, 0), (100, 3), (101, 0), (100, 4), (101, 0), (100, 5), (101, 0), (100, 6), (101, 0), (100, 7), (101, 0), (100, 8), (101, 0)] 2 9 100 true true [109, 1, 204, -1, 1001, 100, 1, 100]) =
      some (qState [(100, 1), (101, 0), (100, 2), (101, 0), (100, 3), (101, 0), (100, 4), (101, 0), (100, 5), (101, 0), (100, 6), (101, 0), (100, 7), (101, 0), (100, 8), (101, 0)] 4 9 1008 true true [109, 1, 204, -1, 1001, 100, 1, 100, 1008]) := by rfl
  have s42 : stepNI (qState [(100, 1), (101, 0), (100, 2), (101, 0), (100, 3), (101, 0), (100, 4), (101, 0), (100, 5), (101, 0), (100, 6), (101, 0), (100, 7), (101, 0), (100, 8), (101, 0)] 4 9 1008 true true [109, 1, 204, -1, 1001, 100, 1, 100, 1008]) =
      some (qState [(100, 1), (101, 0), (100, 2), (101, 0), (100, 3), (101, 0), (100, 4), (101, 0), (100, 5), (101, 0), (100, 6), (101, 0), (100, 7), (101, 0), (100, 8), (101, 0), (100, 9)] 8 9 1008 true true [109, 1, 204, -1, 1001, 100, 1, 100, 1008]) := by rfl
  have s43 : stepNI (qState [(100, 1), (101, 0), (100, 2), (101, 0), (100, 3), (101, 0), (100, 4), (101, 0), (100, 5), (101, 0), (100, 6), (101, 0), (100, 7), (101, 0), (100, 8), (101, 0), (100, 9)] 8 9 1008 true true [109, 1, 204, -1, 1001, 100, 1, 100, 1008]) =
      some (qState [(100, 1), (101, 0), (100, 2), (101, 0), (100, 3), (101, 0), (100, 4), (101, 0), (100, 5), (101, 0), (100, 6), (101, 0), (100, 7), (101, 0), (100, 8), (101, 0), (100, 9), (101, 0)] 12 9 1008 true true [109, 1, 204, -1, 1001, 100, 1, 100, 1008]) := by rfl
  have s44 : stepNI (qState [(100, 1), (101, 0), (100, 2), (101, 0), (100, 3), (101, 0), (100, 4), (101, 0), (100, 5), (101, 0), (100, 6), (101, 0), (100, 7), (101, 0), (100, 8), (101, 0), (100, 9), (101, 0)] 12 9 1008 true true [109, 1, 204, -1, 1001, 100, 1, 100, 1008]) =
      some (qState [(100, 1), (101, 0), (100, 2), (101, 0), (100, 3), (101, 0), (100, 4), (101, 0), (100, 5), (101, 0), (100, 6), (101, 0), (100, 7), (101, 0), (100, 8), (101, 0), (100, 9), (101, 0)] 0 9 1008 true true [109, 1, 204, -1, 1001, 100, 1, 100, 1008]) := by rfl
  have s45 : stepNI (qState [(100, 1), (101, 0), (100, 2), (101, 0), (100, 3), (101, 0), (100, 4), (101, 0), (100, 5), (101, 0), (100, 6), (101, 0), (100, 7), (101, 0), (100, 8), (101, 0), (100, 9), (101, 0)] 0 9 1008 true true [109, 1, 204, -1, 1001, 100, 1, 100, 1008]) =
      some (qState [(100, 1), (101, 0), (100, 2), (101, 0), (100, 3), (101, 0), (100, 4), (101, 0), (100, 5), (101, 0), (100, 6), (101, 0), (100, 7), (101, 0), (100, 8), (101, 0), (100, 9), (101, 0)] 2 10 1008 true true [109, 1, 204, -1, 1001, 100, 1, 100, 1008]) := by rfl
  have s46 : stepNI (qState [(100, 1), (101, 0), (100, 2), (101, 0), (100, 3), (101, 0), (100, 4), (101, 0), (100, 5), (101, 0), (100, 6), (101, 0), (100, 7), (101, 0), (100, 8), (101, 0), (100, 9), (101, 0)] 2 10 1008 true true [109, 1, 204, -1, 1001, 100, 1, 100, 1008]) =
      some (qState [(100, 1), (101, 0), (100, 2), (101, 0), (100, 3), (101, 0), (100, 4), (101, 0), (100, 5), (101, 0), (100, 6), (101, 0), (100, 7), (101, 0), (100, 8), (101, 0), (100, 9), (101, 0)] 4 10 100 true true [109, 1, 204, -1, 1001, 100, 1, 100, 1008, 100]) := by rfl
  have s47 : stepNI (qState [(100, 1), (101, 0), (100, 2), (101, 0), (100, 3), (101, 0), (100, 4), (101, 0), (100, 5), (101, 0), (100, 6), (101, 0), (100, 7), (101, 0), (100, 8), (101, 0), (100, 9), (101, 0)] 4 10 100 true true [109, 1, 204, -1, 1001, 100, 1, 100, 1008, 100]) =
      some (qState [(100, 1), (101, 0), (100, 2), (101, 0), (100, 3), (101, 0), (100, 4), (101, 0), (100, 5), (101, 0), (100, 6), (101, 0), (100, 7), (101, 0), (100, 8), (101, 0), (100, 9), (101, 0), (100, 10)] 8 10 100 true true [109, 1, 204, -1, 1001, 100, 1, 100, 1008, 100]) := by rfl
  have s48 : stepNI (qState [(100, 1), (101, 0), (100, 2), (101, 0), (100, 3), (101, 0), (100, 4), (101, 0), (100, 5), (101, 0), (100, 6), (101, 0), (100, 7), (101, 0), (100, 8), (101, 0), (100, 9), (101, 0), (100, 10)] 8 10 100 true true [109, 1, 204, -1, 1001, 100, 1, 100, 1008, 100]) =
      some (qState [(100, 1), (101, 0), (100, 2), (101, 0), (100, 3), (101, 0), (100, 4), (101, 0), (100, 5), (101, 0), (100, 6), (101, 0), (100, 7), (101, 0), (100, 8), (101, 0), (100, 9), (101, 0), (100, 10), (101, 0)] 12 10 100 true true [109, 1, 204, -1, 1001, 100, 1, 100, 1008, 100]) := by rfl
  have s49 : stepNI (qState [(100, 1), (101, 0), (100, 2), (101, 0), (100, 3), (101, 0), (100, 4), (101, 0), (100, 5), (101, 0), (100, 6), (101, 0), (100, 7), (101, 0), (100, 8), (101, 0), (100, 9), (101, 0), (100, 10), (101, 0)] 12 10 100 true true [109, 1, 204, -1, 1001, 100, 1, 100, 1008, 100]) =
      some (qState [(100, 1), (101, 0), (100, 2), (101, 0), (100, 3), (101, 0), (100, 4), (101, 0), (100, 5), (101, 0), (100, 6), (101, 0), (100, 7), (101, 0), (100, 8), (101, 0), (100, 9), (101, 0), (100, 10), (101, 0)] 0 10 100 true true [109, 1, 204, -1, 1001, 100, 1, 100, 1008, 100]) := by rfl
  have s50 : stepNI (qState [(100, 1), (101, 0), (100, 2), (101, 0), (100, 3), (101, 0), (100, 4), (101, 0), (100, 5), (101, 0), (100, 6), (101, 0), (100, 7), (101, 0), (100, 8), (101, 0), (100, 9), (101, 0), (100, 10), (101, 0)] 0 10 100 true true [109, 1, 204, -1, 1001, 100, 1, 100, 1008, 100]) =
      some (qState [(100, 1), (101, 0), (100, 2), (101, 0), (100, 3), (101, 0), (100, 4), (101, 0), (100, 5), (101, 0), (100, 6), (101, 0), (100, 7), (101, 0), (100, 8), (101, 0), (100, 9), (101, 0), (100, 10), (101, 0)] 2 11 100 true true [109, 1, 204, -1, 1001, 100, 1, 100, 1008, 100]) := by rfl
  have s51 : stepNI (qState [(100, 1), (101, 0), (100, 2), (101, 0), (100, 3), (101, 0), (100, 4), (101, 0), (100, 5), (101, 0), (100, 6), (101, 0), (100, 7), (101, 0), (100, 8), (101, 0), (100, 9), (101, 0), (100, 10), (101, 0)] 2 11 100 true true [109, 1, 204, -1, 1001, 100, 1, 100, 1008, 100]) =
      some (qState [(100, 1), (101, 0), (100, 2), (101, 0), (100, 3), (101, 0), (100, 4), (101, 0), (100, 5), (101, 0), (100, 6), (101, 0), (100, 7), (101, 0), (100, 8), (101, 0), (100, 9), (101, 0), (100, 10), (101, 0)] 4 11 16 true true [109, 1, 204, -1, 1001, 100, 1, 100, 1008, 100, 16]) := by rfl
  have s52 : stepNI (qState [(100, 1), (101, 0), (100, 2), (101, 0), (100, 3), (101, 0), (100, 4), (101, 0), (100, 5), (101, 0), (100, 6), (101, 0), (100, 7), (101, 0), (100, 8), (101, 0), (100, 9), (101, 0), (100, 10), (101, 0)] 4 11 16 true true [109, 1, 204, -1, 1001, 100, 1, 100, 1008, 100, 16]) =
      some (qState [(100, 1), (101, 0), (100, 2), (101, 0), (100, 3), (101, 0), (100, 4), (101, 0), (100, 5), (101, 0), (100, 6), (101, 0), (100, 7), (101, 0), (100, 8), (101, 0), (100, 9), (101, 0), (100, 10), (101, 0), (100, 11)] 8 11 16 true true [109, 1, 204, -1, 1001, 100, 1, 100, 1008, 100, 16]) := by rfl
  have s53 : stepNI (qState [(100, 1), (101, 0), (100, 2), (101, 0), (100, 3), (101, 0), (100, 4), (101, 0), (100, 5), (101, 0), (100, 6), (101, 0), (100, 7), (101, 0), (100, 8), (101, 0), (100, 9), (101, 0), (100, 10), (101, 0), (100, 11)] 8 11 16 true true [109, 1, 204, -1, 1001, 100, 1, 100, 1008, 100, 16]) =
      some (qState [(100, 1), (101, 0), (100, 2), (101, 0), (100, 3), (101, 0), (100, 4), (101, 0), (100, 5), (101, 0), (100, 6), (101, 0), (100, 7), (101, 0), (100, 8), (101, 0), (100, 9), (101, 0), (100, 10), (101, 0), (100, 11), (101, 0)] 12 11 16 true true [109, 1, 204, -1, 1001, 100, 1, 100, 1008, 100, 16]) := by rfl
  have s54 : stepNI (qState [(100, 1), (101, 0), (100, 2), (101, 0), (100, 3), (101, 0), (100, 4), (101, 0), (100, 5), (101, 0), (100, 6), (101, 0), (100, 7), (101, 0), (100, 8), (101, 0), (100, 9), (101, 0), (100, 10), (101, 0), (100, 11), (101, 0)] 12 11 16 true true [109, 1, 204, -1, 1001, 100, 1, 100, 1008, 100, 16]) =
      some (qState [(100, 1), (101, 0), (100, 2), (101, 0), (100, 3), (101, 0), (100, 4), (101, 0), (100, 5), (101, 0), (100, 6), (101, 0), (100, 7), (101, 0), (100, 8), (101, 0), (100, 9), (101, 0), (100, 10), (101, 0), (100, 11), (101, 0)] 0 11 16 true true [109, 1, 204, -1, 1001, 100, 1, 100, 1008, 100, 16]) := by rfl
  have s55 : stepNI (qState [(100, 1), (101, 0), (100, 2), (101, 0), (100, 3), (101, 0), (100, 4), (101, 0), (100, 5), (101, 0), (100, 6), (101, 0), (100, 7), (101, 0), (100, 8), (101, 0), (100, 9), (101, 0), (100, 10), (101, 0), (100, 11), (101, 0)] 0 11 16 true true [109, 1, 204, -1, 1001, 100, 1, 100, 1008, 100, 16]) =
      some (qState [(100, 1), (101, 0), (100, 2), (101, 0), (100, 3), (101, 0), (100, 4), (101, 0), (100, 5), (101, 0), (100, 6), (101, 0), (100, 7), (101, 0), (100, 8), (101, 0), (100, 9), (101, 0), (100, 10), (101, 0), (100, 11), (101, 0)] 2 12 16 true true [109, 1, 204, -1, 1001, 100, 1, 100, 1008, 100, 16]) := by rfl
  have s56 : stepNI (qState [(100, 1), (101, 0), (100, 2), (101, 0), (100, 3), (101, 0), (100, 4), (101, 0), (100, 5), (101, 0), (100, 6), (101, 0), (100, 7), (101, 0), (100, 8), (101, 0), (100, 9), (101, 0), (100, 10), (101, 0), (100, 11), (101, 0)] 2 12 16 true true [109, 1, 204, -1, 1001, 100, 1, 100, 1008, 100, 16]) =
      some (qState [(100, 1), (101, 0), (100, 2), (101, 0), (100, 3), (101, 0), (100, 4), (101, 0), (100, 5), (101, 0), (100, 6), (101, 0), (100, 7), (101, 0), (100, 8), (101, 0), (100, 9), (101, 0), (100, 10), (101, 0), (100, 11), (101, 0)] 4 12 101 true true [109, 1, 204, -1, 1001, 100, 1, 100, 1008, 100, 16, 101]) := by rfl
  have s57 : stepNI (qState [(100, 1), (101, 0), (100, 2), (101, 0), (100, 3), (101, 0), (100, 4), (101, 0), (100, 5), (101, 0), (100, 6), (101, 0), (100, 7), (101, 0), (100, 8), (101, 0), (100, 9), (101, 0), (100, 10), (101, 0), (100, 11), (101, 0)] 4 12 101 true true [109, 1, 204, -1, 1001, 100, 1, 100, 1008, 100, 16, 101]) =
      some (qState [(100, 1), (101, 0), (100, 2), (101, 0), (100, 3), (101, 0), (100, 4), (101, 0), (100, 5), (101, 0), (100, 6), (101, 0), (100, 7), (101, 0), (100, 8), (101, 0), (100, 9), (101, 0), (100, 10), (101, 0), (100, 11), (101, 0), (100, 12)] 8 12 101 true true [109, 1, 204, -1, 1001, 100, 1, 100, 1008, 100, 16, 101]) := by rfl
  have s58 : stepNI (qState [(100, 1), (101, 0), (100, 2), (101, 0), (100, 3), (101, 0), (100, 4), (101, 0), (100, 5), (101, 0), (100, 6), (101, 0), (100, 7), (101, 0), (100, 8), (101, 0), (100, 9), (101, 0), (100, 10), (101, 0), (100, 11), (101, 0), (100, 12)] 8 12 101 true true [109, 1, 204, -1, 1001, 100, 1, 100, 1008, 100, 16, 101]) =
      some (qState [(100, 1), (101, 0), (100, 2), (101, 0), (100, 3), (101, 0), (100, 4), (101, 0), (100, 5), (101, 0), (100, 6), (101, 0), (100, 7), (101, 0), (100, 8), (101, 0), (100, 9), (101, 0), (100, 10), (101, 0), (100, 11), (101, 0), (100, 12), (101, 0)] 12 12 101 true true [109, 1, 204, -1, 1001, 100, 1, 100, 1008, 100, 16, 101]) := by rfl
  have s59 : stepNI (qState [(100, 1), (101, 0), (100, 2), (101, 0), (100, 3), (101, 0), (100, 4), (101, 0), (100, 5), (101, 0), (100, 6), (101, 0), (100, 7), (101, 0), (100, 8), (101, 0), (100, 9), (101, 0), (100, 10), (101, 0), (100, 11), (101, 0), (100, 12), (101, 0)] 12 12 101 true true [109, 1, 204, -1, 1001, 100, 1, 100, 1008, 100, 16, 101]) =
      some (qState [(100, 1), (101, 0), (100, 2), (101, 0), (100, 3), (101, 0), (100, 4), (101, 0), (100, 5), (101, 0), (100, 6), (101, 0), (100, 7), (101, 0), (100, 8), (101, 0), (100, 9), (101, 0), (100, 10), (101, 0), (100, 11), (101, 0), (100, 12), (101, 0)] 0 12 101 true true [109, 1, 204, -1, 1001, 100, 1, 100, 1008, 100, 16, 101]) := by rfl
  have s60 : stepNI (qState [(100, 1), (101, 0), (100, 2), (101, 0), (100, 3), (101, 0), (100, 4), (101, 0), (100, 5), (101, 0), (100, 6), (101, 0), (100, 7), (101, 0), (100, 8), (101, 0), (100, 9), (101, 0), (100, 10), (101, 0), (100, 11), (101, 0), (100, 12), (101, 0)] 0 12 101 true true [109, 1, 204, -1, 1001, 100, 1, 100, 1008, 100, 16, 101]) =
      some (qState [(100, 1), (101, 0), (100, 2), (101, 0), (100, 3), (101, 0), (100, 4), (101, 0), (100, 5), (101, 0), (100, 6), (101, 0), (100, 7), (101, 0), (100, 8), (101, 0), (100, 9), (101, 0), (100, 10), (101, 0), (100, 11), (101, 0), (100, 12), (101, 0)] 2 13 101 true true [109, 1, 204, -1, 1001, 100, 1, 100, 1008, 100, 16, 101]) := by rfl
  have s61 : stepNI (qState [(100, 1), (101, 0), (100, 2), (101, 0), (100, 3), (101, 0), (100, 4), (101, 0), (100, 5), (101, 0), (100, 6), (101, 0), (100, 7), (101, 0), (100, 8), (101, 0), (100, 9), (101, 0), (100, 10), (101, 0), (100, 11), (101, 0), (100, 12), (101, 0)] 2 13 101 true true [109, 1, 204, -1, 1001, 100, 1, 100, 1008, 100, 16, 101]) =
      some (qState [(100, 1), (101, 0), (100, 2), (101, 0), (100, 3), (101, 0), (100, 4), (101, 0), (100, 5), (101, 0), (100, 6), (101, 0), (100, 7), (101, 0), (100, 8), (101, 0), (100, 9), (101, 0), (100, 10), (101, 0), (100, 11), (101, 0), (100, 12), (101, 0)] 4 13 1006 true true [109, 1, 204, -1, 1001, 100, 1, 100, 1008, 100, 16, 101, 1006]) := by rfl
  have s62 : stepNI (qState [(100, 1), (101, 0), (100, 2), (101, 0), (100, 3), (101, 0), (100, 4), (101, 0), (100, 5), (101, 0), (100, 6), (101, 0), (100, 7), (101, 0), (100, 8), (101, 0), (100, 9), (101, 0), (100, 10), (101, 0), (100, 11), (101, 0), (100, 12), (101, 0)] 4 13 1006 true true [109, 1, 204, -1, 1001, 100, 1, 100, 1008, 100, 16, 101, 1006]) =
      some (qState [(100, 1), (101, 0), (100, 2), (101, 0), (100, 3), (101, 0), (100, 4), (101, 0), (100, 5), (101, 0), (100, 6), (101, 0), (100, 7), (101, 0), (100, 8), (101, 0), (100, 9), (101, 0), (100, 10), (101, 0), (100, 11), (101, 0), (100, 12), (101, 0), (100, 13)] 8 13 1006 true true [109, 1, 204, -1, 1001, 100, 1, 100, 1008, 100, 16, 101, 1006]) := by rfl
  have s63 : stepNI (qState [(100, 1), (101, 0), (100, 2), (101, 0), (100, 3), (101, 0), (100, 4), (101, 0), (100, 5), (101, 0), (100, 6), (101, 0), (100, 7), (101, 0), (100, 8), (101, 0), (100, 9), (101, 0), (100, 10), (101, 0), (100, 11), (101, 0), (100, 12), (101, 0), (100, 13)] 8 13 1006 true true [109, 1, 204, -1, 1001, 100, 1, 100, 1008, 100, 16, 101, 1006]) =
      some (qState [(100, 1), (101, 0), (100, 2), (101, 0), (100, 3), (101, 0), (100, 4), (101, 0), (100, 5), (101, 0), (100, 6), (101, 0), (100, 7), (101, 0), (100, 8), (101, 0), (100, 9), (101, 0), (100, 10), (101, 0), (100, 11), (101, 0), (100, 12), (101, 0), (100, 13), (101, 0)] 12 13 1006 true true [109, 1, 204, -1, 1001, 100, 1, 100, 1008, 100, 16, 101, 1006]) := by rfl
  have s64 : stepNI (qState [(100, 1), (101, 0), (100, 2), (101, 0), (100, 3), (101, 0), (100, 4), (101, 0), (100, 5), (101, 0), (100, 6), (101, 0), (100, 7), (101, 0), (100, 8), (101, 0), (100, 9), (101, 0), (100, 10), (101, 0), (100, 11), (101, 0), (100, 12), (101, 0), (100, 13), (101, 0)] 12 13 1006 true true [109, 1, 204, -1, 1001, 100, 1, 100, 1008, 100, 16, 101, 1006]) =
      some (qState [(100, 1), (101, 0), (100, 2), (101, 0), (100, 3), (101, 0), (100, 4), (101, 0), (100, 5), (101, 0), (100, 6), (101, 0), (100, 7), (101, 0), (100, 8), (101, 0), (100, 9), (101, 0), (100, 10), (101, 0), (100, 11), (101, 0), (100, 12), (101, 0), (100, 13), (101, 0)] 0 13 1006 true true [109, 1, 204, -1, 1001, 100, 1, 100, 1008, 100, 16, 101, 1006]) := by rfl
  have s65 : stepNI (qState [(100, 1), (101, 0), (100, 2), (101, 0), (100, 3), (101, 0), (100, 4), (101, 0), (100, 5), (101, 0), (100, 6), (101, 0), (100, 7), (101, 0), (100, 8), (101, 0), (100, 9), (101, 0), (100, 10), (101, 0), (100, 11), (101, 0), (100, 12), (101, 0), (100, 13), (101, 0)] 0 13 1006 true true [109, 1, 204, -1, 1001, 100, 1, 100, 1008, 100, 16, 101, 1006]) =
      some (qState [(100, 1), (101, 0), (100, 2), (101, 0), (100, 3), (101, 0), (100, 4), (101, 0), (100, 5), (101, 0), (100, 6), (101, 0), (100, 7), (101, 0), (100, 8), (101, 0), (100, 9), (101, 0), (100, 10), (101, 0), (100, 11), (101, 0), (100, 12), (101, 0), (100, 13), (101, 0)] 2 14 1006 true true [109, 1, 204, -1, 1001, 100, 1, 100, 1008, 100, 16, 101, 1006]) := by rfl
  have s66 : stepNI (qState [(100, 1), (101, 0), (100, 2), (101, 0), (100, 3), (101, 0), (100, 4), (101, 0), (100, 5), (101, 0), (100, 6), (101, 0), (100, 7), (101, 0), (100, 8), (101, 0), (100, 9), (101, 0), (100, 10), (101, 0), (100, 11), (101, 0), (100, 12), (101, 0), (100, 13), (101, 0)] 2 14 1006 true true [109, 1, 204, -1, 1001, 100, 1, 100, 1008, 100, 16, 101, 1006]) =
      some (qState [(100, 1), (101, 0), (100, 2), (101, 0), (100, 3), (101, 0), (100, 4), (101, 0), (100, 5), (101, 0), (100, 6), (101, 0), (100, 7), (101, 0), (100, 8), (101, 0), (100, 9), (101, 0), (100, 10), (101, 0), (100, 11), (101, 0), (100, 12), (101, 0), (100, 13), (101, 0)] 4 14 101 true true [109, 1, 204, -1, 1001, 100, 1, 100, 1008, 100, 16, 101, 1006, 101]) := by rfl
  have s67 : stepNI (qState [(100, 1), (101, 0), (100, 2), (101, 0), (100, 3), (101, 0), (100, 4), (101, 0), (100, 5), (101, 0), (100, 6), (101, 0), (100, 7), (101, 0), (100, 8), (101, 0), (100, 9), (101, 0), (100, 10), (101, 0), (100, 11), (101, 0), (100, 12), (101, 0), (100, 13), (101, 0)] 4 14 101 true true [109, 1, 204, -1, 1001, 100, 1, 100, 1008, 100, 16, 101, 1006, 101]) =
      some (qState [(100, 1), (101, 0), (100, 2), (101, 0), (100, 3), (101, 0), (100, 4), (101, 0), (100, 5), (101, 0), (100, 6), (101, 0), (100, 7), (101, 0), (100, 8), (101, 0), (100, 9), (101, 0), (100, 10), (101, 0), (100, 11), (101, 0), (100, 12), (101, 0), (100, 13), (101, 0), (100, 14)] 8 14 101 true true [109, 1, 204, -1, 1001, 100, 1, 100, 1008, 100, 16, 101, 1006, 101]) := by rfl
  have s68 : stepNI (qState [(100, 1), (101, 0), (100, 2), (101, 0), (100, 3), (101, 0), (100, 4), (101, 0), (100, 5), (101, 0), (100, 6), (101, 0), (100, 7), (101, 0), (100, 8), (101, 0), (100, 9), (101, 0), (100, 10), (101, 0), (100, 11), (101, 0), (100, 12), (101, 0), (100, 13), (101, 0), (100, 14)] 8 14 101 true true [109, 1, 204, -1, 1001, 100, 1, 100, 1008, 100, 16, 101, 1006, 101]) =
      some (qState [(100, 1), (101, 0), (100, 2), (101, 0), (100, 3), (101, 0), (100, 4), (101, 0), (100, 5), (101, 0), (100, 6), (101, 0), (100, 7), (101, 0), (100, 8), (101, 0), (100, 9), (101, 0), (100, 10), (101, 0), (100, 11), (101, 0), (100, 12), (101, 0), (100, 13), (101, 0), (100, 14), (101, 0)] 12 14 101 true true [109, 1, 204, -1, 1001, 100, 1, 100, 1008, 100, 16, 101, 1006, 101]) := by rfl
  have s69 : stepNI (qState [(100, 1), (101, 0), (100, 2), (101, 0), (100, 3), (101, 0), (100, 4), (101, 0), (100, 5), (101, 0), (100, 6), (101, 0), (100, 7), (101, 0), (100, 8), (101, 0), (100, 9), (101, 0), (100, 10), (101, 0), (100, 11), (101, 0), (100, 12), (101, 0), (100, 13), (101, 0), (100, 14), (101, 0)] 12 14 101 true true [109, 1, 204, -1, 1001, 100, 1, 100, 1008, 100, 16, 101, 1006, 101]) =
      some (qState [(100, 1), (101, 0), (100, 2), (101, 0), (100, 3), (101, 0), (100, 4), (101, 0), (100, 5), (101, 0), (100, 6), (101, 0), (100, 7), (101, 0), (100, 8), (101, 0), (100, 9), (101, 0), (100, 10), (101, 0), (100, 11), (101, 0), (100, 12), (101, 0), (100, 13), (101, 0), (100, 14), (101, 0)] 0 14 101 true true [109, 1, 204, -1, 1001, 100, 1, 100, 1008, 100, 16, 101, 1006, 101]) := by rfl
  have s70 : stepNI (qState [(100, 1), (101, 0), (100, 2), (101, 0), (100, 3), (101, 0), (100, 4), (101, 0), (100, 5), (101, 0), (100, 6), (101, 0), (100, 7), (101, 0), (100, 8), (101, 0), (100, 9), (101, 0), (100, 10), (101, 0), (100, 11), (101, 0), (100, 12), (101, 0), (100, 13), (101, 0), (100, 14), (101, 0)] 0 14 101 true true [109, 1, 204, -1, 1001, 100, 1, 100, 1008, 100, 16, 101, 1006, 101]) =
      some (qState [(100, 1), (101, 0), (100, 2), (101, 0), (100, 3), (101, 0), (100, 4), (101, 0), (100, 5), (101, 0), (100, 6), (101, 0), (100, 7), (101, 0), (100, 8), (101, 0), (100, 9), (101, 0), (100, 10), (101, 0), (100, 11), (101, 0), (100, 12), (101, 0), (100, 13), (101, 0), (100, 14), (101, 0)] 2 15 101 true true [109, 1, 204, -1, 1001, 100, 1, 100, 1008, 100, 16, 101, 1006, 101]) := by rfl
  have s71 : stepNI (qState [(100, 1), (101, 0), (100, 2), (101, 0), (100, 3), (101, 0), (100, 4), (101, 0), (100, 5), (101, 0), (100, 6), (101, 0), (100, 7), (101, 0), (100, 8), (101, 0), (100, 9), (101, 0), (100, 10), (101, 0), (100, 11), (101, 0), (100, 12), (101, 0), (100, 13), (101, 0), (100, 14), (101, 0)] 2 15 101 true true [109, 1, 204, -1, 1001, 100, 1, 100, 1008, 100, 16, 101, 1006, 101]) =
      some (qState [(100, 1), (101, 0), (100, 2), (101, 0), (100, 3), (101, 0), (100, 4), (101, 0), (100, 5), (101, 0), (100, 6), (101, 0), (100, 7), (101, 0), (100, 8), (101, 0), (100, 9), (101, 0), (100, 10), (101, 0), (100, 11), (101, 0), (100, 12), (101, 0), (100, 13), (101, 0), (100, 14), (101, 0)] 4 15 0 true true [109, 1, 204, -1, 1001, 100, 1, 100, 1008, 100, 16, 101, 1006, 101, 0]) := by rfl
  have s72 : stepNI (qState [(100, 1), (101, 0), (100, 2), (101, 0), (100, 3), (101, 0), (100, 4), (101, 0), (100, 5), (101, 0), (100, 6), (101, 0), (100, 7), (101, 0), (100, 8), (101, 0), (100, 9), (101, 0), (100, 10), (101, 0), (100, 11), (101, 0), (100, 12), (101, 0), (100, 13), (101, 0), (100, 14), (101, 0)] 4 15 0 true true [109, 1, 204, -1, 1001, 100, 1, 100, 1008, 100, 16, 101, 1006, 101, 0]) =
      some (qState [(100, 1), (101, 0), (100, 2), (101, 0), (100, 3), (101, 0), (100, 4), (101, 0), (100, 5), (101, 0), (100, 6), (101, 0), (100, 7), (101, 0), (100, 8), (101, 0), (100, 9), (101, 0), (100, 10), (101, 0), (100, 11), (101, 0), (100, 12), (101, 0), (100, 13), (101, 0), (100, 14), (101, 0), (100, 15)] 8 15 0 true true [109, 1, 204, -1, 1001, 100, 1, 100, 1008, 100, 16, 101, 1006, 101, 0]) := by rfl
  have s73 : stepNI (qState [(100, 1), (101, 0), (100, 2), (101, 0), (100, 3), (101, 0), (100, 4), (101, 0), (100, 5), (101, 0), (100, 6), (101, 0), (100, 7), (101, 0), (100, 8), (101, 0), (100, 9), (101, 0), (100, 10), (101, 0), (100, 11), (101, 0), (100, 12), (101, 0), (100, 13), (101, 0), (100, 14), (101, 0), (100, 15)] 8 15 0 true true [109, 1, 204, -1, 1001, 100, 1, 100, 1008, 100, 16, 101, 1006, 101, 0]) =
      some (qState [(100, 1), (101, 0), (100, 2), (101, 0), (100, 3), (101, 0), (100, 4), (101, 0), (100, 5), (101, 0), (100, 6), (101, 0), (100, 7), (101, 0), (100, 8), (101, 0), (100, 9), (101, 0), (100, 10), (101, 0), (100, 11), (101, 0), (100, 12), (101, 0), (100, 13), (101, 0), (100, 14), (101, 0), (100, 15), (101, 0)] 12 15 0 true true [109, 1, 204, -1, 1001, 100, 1, 100, 1008, 100, 16, 101, 1006, 101, 0]) := by rfl
  have s74 : stepNI (qState [(100, 1), (101, 0), (100, 2), (101, 0), (100, 3), (101, 0), (100, 4), (101, 0), (100, 5), (101, 0), (100, 6), (101, 0), (100, 7), (101, 0), (100, 8), (101, 0), (100, 9), (101, 0), (100, 10), (101, 0), (100, 11), (101, 0), (100, 12), (101, 0), (100, 13), (101, 0), (100, 14), (101, 0), (100, 15), (101, 0)] 12 15 0 true true [109, 1, 204, -1, 1001, 100, 1, 100, 1008, 100, 16, 101, 1006, 101, 0]) =
      some (qState [(100, 1), (101, 0), (100, 2), (101, 0), (100, 3), (101, 0), (100, 4), (101, 0), (100, 5), (101, 0), (100, 6), (101, 0), (100, 7), (101, 0), (100, 8), (101, 0), (100, 9), (101, 0), (100, 10), (101, 0), (100, 11), (101, 0), (100, 12), (101, 0), (100, 13), (101, 0), (100, 14), (101, 0), (100, 15), (101, 0)] 0 15 0 true true [109, 1, 204, -1, 1001, 100, 1, 100, 1008, 100, 16, 101, 1006, 101, 0]) := by rfl
  have s75 : stepNI (qState [(100, 1), (101, 0), (100, 2), (101, 0), (100, 3), (101, 0), (100, 4), (101, 0), (100, 5), (101, 0), (100, 6), (101, 0), (100, 7), (101, 0), (100, 8), (101, 0), (100, 9), (101, 0), (100, 10), (101, 0), (100, 11), (101, 0), (100, 12), (101, 0), (100, 13), (101, 0), (100, 14), (101, 0), (100, 15), (101, 0)] 0 15 0 true true [109, 1, 204, -1, 1001, 100, 1, 100, 1008, 100, 16, 101, 1006, 101, 0]) =
      some (qState [(100, 1), (101, 0), (100, 2), (101, 0), (100, 3), (101, 0), (100, 4), (101, 0), (100, 5), (101, 0), (100, 6), (101, 0), (100, 7), (101, 0), (100, 8), (101, 0), (100, 9), (101, 0), (100, 10), (101, 0), (100, 11), (101, 0), (100, 12), (101, 0), (100, 13), (101, 0), (100, 14), (101, 0), (100, 15), (101, 0)] 2 16 0 true true [109, 1, 204, -1, 1001, 100, 1, 100, 1008, 100, 16, 101, 1006, 101, 0]) := by rfl
  have s76 : stepNI (qState [(100, 1), (101, 0), (100, 2), (101, 0), (100, 3), (101, 0), (100, 4), (101, 0), (100, 5), (101, 0), (100, 6), (101, 0), (100, 7), (101, 0), (100, 8), (101, 0), (100, 9), (101, 0), (100, 10), (101, 0), (100, 11), (101, 0), (100, 12), (101, 0), (100, 13), (101, 0), (100, 14), (101, 0), (100, 15), (101, 0)] 2 16 0 true true [109, 1, 204, -1, 1001, 100, 1, 100, 1008, 100, 16, 101, 1006, 101, 0]) =
      some (qState [(100, 1), (101, 0), (100, 2), (101, 0), (100, 3), (101, 0), (100, 4), (101, 0), (100, 5), (101, 0), (100, 6), (101, 0), (100, 7), (101, 0), (100, 8), (101, 0), (100, 9), (101, 0), (100, 10), (101, 0), (100, 11), (101, 0), (100, 12), (101, 0), (100, 13), (101, 0), (100, 14), (101, 0), (100, 15), (101, 0)] 4 16 99 true true [109, 1, 204, -1, 1001, 100, 1, 100, 1008, 100, 16, 101, 1006, 101, 0, 99]) := by rfl
  have s77 : stepNI (qState [(100, 1), (101, 0), (100, 2), (101, 0), (100, 3), (101, 0), (100, 4), (101, 0), (100, 5), (101, 0), (100, 6), (101, 0), (100, 7), (101, 0), (100, 8), (101, 0), (100, 9), (101, 0), (100, 10), (101, 0), (100, 11), (101, 0), (100, 12), (101, 0), (100, 13), (101, 0), (100, 14), (101, 0), (100, 15), (101, 0)] 4 16 99 true true [109, 1, 204, -1, 1001, 100, 1, 100, 1008, 100, 16, 101, 1006, 101, 0, 99]) =
      some (qState [(100, 1), (101, 0), (100, 2), (101, 0), (100, 3), (101, 0), (100, 4), (101, 0), (100, 5), (101, 0), (100, 6), (101, 0), (100, 7), (101, 0), (100, 8), (101, 0), (100, 9), (101, 0), (100, 10), (101, 0), (100, 11), (101, 0), (100, 12), (101, 0), (100, 13), (101, 0), (100, 14), (101, 0), (100, 15), (101, 0), (100, 16)] 8 16 99 true true [109, 1, 204, -1, 1001, 100, 1, 100, 1008, 100, 16, 101, 1006, 101, 0, 99]) := by rfl
  have s78 : stepNI (qState [(100, 1), (101, 0), (100, 2), (101, 0), (100, 3), (101, 0), (100, 4), (101, 0), (100, 5), (101, 0), (100, 6), (101, 0), (100, 7), (101, 0), (100, 8), (101, 0), (100, 9), (101, 0), (100, 10), (101, 0), (100, 11), (101, 0), (100, 12), (101, 0), (100, 13), (101, 0), (100, 14), (101, 0), (100, 15), (101, 0), (100, 16)] 8 16 99 true true [109, 1, 204, -1, 1001, 100, 1, 100, 1008, 100, 16, 101, 1006, 101, 0, 99]) =
      some (qState [(100, 1), (101, 0), (100, 2), (101, 0), (100, 3), (101, 0), (100, 4), (101, 0), (100, 5), (101, 0), (100, 6), (101, 0), (100, 7), (101, 0), (100, 8), (101, 0), (100, 9), (101, 0), (100, 10), (101, 0), (100, 11), (101, 0), (100, 12), (101, 0), (100, 13), (101, 0), (100, 14), (101, 0), (100, 15), (101, 0), (100, 16), (101, 1)] 12 16 99 true true [109, 1, 204, -1, 1001, 100, 1, 100, 1008, 100, 16, 101, 1006, 101, 0, 99]) := by rfl
  have s79 : stepNI (qState [(100, 1), (101, 0), (100, 2), (101, 0), (100, 3), (101, 0), (100, 4), (101, 0), (100, 5), (101, 0), (100, 6), (101, 0), (100, 7), (101, 0), (100, 8), (101, 0), (100, 9), (101, 0), (100, 10), (101, 0), (100, 11), (101, 0), (100, 12), (101, 0), (100, 13), (101, 0), (100, 14), (101, 0), (100, 15), (101, 0), (100, 16), (101, 1)] 12 16 99 true true [109, 1, 204, -1, 1001, 100, 1, 100, 1008, 100, 16, 101, 1006, 101, 0, 99]) =
      some (qState [(100, 1), (101, 0), (100, 2), (101, 0), (100, 3), (101, 0), (100, 4), (101, 0), (100, 5), (101, 0), (100, 6), (101, 0), (100, 7), (101, 0), (100, 8), (101, 0), (100, 9), (101, 0), (100, 10), (101, 0), (100, 11), (101, 0), (100, 12), (101, 0), (100, 13), (101, 0), (100, 14), (101, 0), (100, 15), (101, 0), (100, 16), (101, 1)] 15 16 99 true true [109, 1, 204, -1, 1001, 100, 1, 100, 1008, 100, 16, 101, 1006, 101, 0, 99]) := by rfl
  have s80 : stepNI (qState [(100, 1), (101, 0), (100, 2), (101, 0), (100, 3), (101, 0), (100, 4), (101, 0), (100, 5), (101, 0), (100, 6), (101, 0), (100, 7), (101, 0), (100, 8), (101, 0), (100, 9), (101, 0), (100, 10), (101, 0), (100, 11), (101, 0), (100, 12), (101, 0), (100, 13), (101, 0), (100, 14), (101, 0), (100, 15), (101, 0), (100, 16), (101, 1)] 15 16 99 true true [109, 1, 204, -1, 1001, 100, 1, 100, 1008, 100, 16, 101, 1006, 101, 0, 99]) =
      some (qState [(100, 1), (101, 0), (100, 2), (101, 0), (100, 3), (101, 0), (100, 4), (101, 0), (100, 5), (101, 0), (100, 6), (101, 0), (100, 7), (101, 0), (100, 8), (101, 0), (100, 9), (101, 0), (100, 10), (101, 0), (100, 11), (101, 0), (100, 12), (101, 0), (100, 13), (101, 0), (100, 14), (101, 0), (100, 15), (101, 0), (100, 16), (101, 1)] 15 16 99 true false [109, 1, 204, -1, 1001, 100, 1, 100, 1008, 100, 16, 101, 1006, 101, 0, 99]) := by rfl
  have r81 : runNI 0 (qState [(100, 1), (101, 0), (100, 2), (101, 0), (100, 3), (101, 0), (100, 4), (101, 0), (100, 5), (101, 0), (100, 6), (101, 0), (100, 7), (101, 0), (100, 8), (101, 0), (100, 9), (101, 0), (100, 10), (101, 0), (100, 11), (101, 0), (100, 12), (101, 0), (100, 13), (101, 0), (100, 14), (101, 0), (100, 15), (101, 0), (100, 16), (101, 1)] 15 16 99 true false [109, 1, 204, -1, 1001, 100, 1, 100, 1008, 100, 16, 101, 1006, 101, 0, 99]) =
      some (qState [(100, 1), (101, 0), (100, 2), (101, 0), (100, 3), (101, 0), (100, 4), (101, 0), (100, 5), (101, 0), (100, 6), (101, 0), (100, 7), (101, 0), (100, 8), (101, 0), (100, 9), (101, 0), (100, 10), (101, 0), (100, 11), (101, 0), (100, 12), (101, 0), (100, 13), (101, 0), (100, 14), (101, 0), (100, 15), (101, 0), (100, 16), (101, 1)] 15 16 99 true false [109, 1, 204, -1, 1001, 100, 1, 100, 1008, 100, 16, 101, 1006, 101, 0, 99]) := rfl
  have r80 : runNI 1 (qState [(100, 1), (101, 0), (100, 2), (101, 0), (100, 3), (101, 0), (100, 4), (101, 0), (100, 5), (101, 0), (100, 6), (101, 0), (100, 7), (101, 0), (100, 8), (101, 0), (100, 9), (101, 0), (100, 10), (101, 0), (100, 11), (101, 0), (100, 12), (101, 0), (100, 13), (101, 0), (100, 14), (101, 0), (100, 15), (101, 0), (100, 16), (101, 1)] 15 16 99 true true [109, 1, 204, -1, 1001, 100, 1, 100, 1008, 100, 16, 101, 1006, 101, 0, 99]) =
      some (qState [(100, 1), (101, 0), (100, 2), (101, 0), (100, 3), (101, 0), (100, 4), (101, 0), (100, 5), (101, 0), (100, 6), (101, 0), (100, 7), (101, 0), (100, 8), (101, 0), (100, 9), (101, 0), (100, 10), (101, 0), (100, 11), (101, 0), (100, 12), (101, 0), (100, 13), (101, 0), (100, 14), (101, 0), (100, 15), (101, 0), (100, 16), (101, 1)] 15 16 99 true false [109, 1, 204, -1, 1001, 100, 1, 100, 1008, 100, 16, 101, 1006, 101, 0, 99]) := runNI_cons 0 _ _ _ s80 r81
  have r79 : runNI 2 (qState [(100, 1), (101, 0), (100, 2), (101, 0), (100, 3), (101, 0), (100, 4), (101, 0), (100, 5), (101, 0), (100, 6), (101, 0), (100, 7), (101, 0), (100, 8), (101, 0), (100, 9), (101, 0), (100, 10), (101, 0), (100, 11), (101, 0), (100, 12), (101, 0), (100, 13), (101, 0), (100, 14), (101, 0), (100, 15), (101, 0), (100, 16), (101, 1)] 12 16 99 true true [109, 1, 204, -1, 1001, 100, 1, 100, 1008, 100, 16, 101, 1006, 101, 0, 99]) =
      some (qState [(100, 1), (101, 0), (100, 2), (101, 0), (100, 3), (101, 0), (100, 4), (101, 0), (100, 5), (101, 0), (100, 6), (101, 0), (100, 7), (101, 0), (100, 8), (101, 0), (100, 9), (101, 0), (100, 10), (101, 0), (100, 11), (101, 0), (100, 12), (101, 0), (100, 13), (101, 0), (100, 14), (101, 0), (100, 15), (101, 0), (100, 16), (101, 1)] 15 16 99 true false [109, 1, 204, -1, 1001, 100, 1, 100, 1008, 100, 16, 101, 1006, 101, 0, 99]) := runNI_cons 1 _ _ _ s79 r80
  have r78 : runNI 3 (qState [(100, 1), (101, 0), (100, 2), (101, 0), (100, 3), (101, 0), (100, 4), (101, 0), (100, 5), (101, 0), (100, 6), (101, 0), (100, 7), (101, 0), (100, 8), (101, 0), (100, 9), (101, 0), (100, 10), (101, 0), (100, 11), (101, 0), (100, 12), (101, 0), (100, 13), (101, 0), (100, 14), (101, 0), (100, 15), (101, 0), (100, 16)] 8 16 99 true true [109, 1, 204, -1, 1001, 100, 1, 100, 1008, 100, 16, 101, 1006, 101, 0, 99]) =
      some (qState [(100, 1), (101, 0), (100, 2), (101, 0), (100, 3), (101, 0), (100, 4), (101, 0), (100, 5), (101, 0), (100, 6), (101, 0), (100, 7), (101, 0), (100, 8), (101, 0), (100, 9), (101, 0), (100, 10), (101, 0), (100, 11), (101, 0), (100, 12), (101, 0), (100, 13), (101, 0), (100, 14), (101, 0), (100, 15), (101, 0), (100, 16), (101, 1)] 15 16 99 true false [109, 1, 204, -1, 1001, 100, 1, 100, 1008, 100, 16, 101, 1006, 101, 0, 99]) := runNI_cons 2 _ _ _ s78 r79
  have r77 : runNI 4 (qState [(100, 1), (101, 0), (100, 2), (101, 0), (100, 3), (101, 0), (100, 4), (101, 0), (100, 5), (101, 0), (100, 6), (101, 0), (100, 7), (101, 0), (100, 8), (101, 0), (100, 9), (101, 0), (100, 10), (101, 0), (100, 11), (101, 0), (100, 12), (101, 0), (100, 13), (101, 0), (100, 14), (101, 0), (100, 15), (101, 0)] 4 16 99 true true [109, 1, 204, -1, 1001, 100, 1, 100, 1008, 100, 16, 101, 1006, 101, 0, 99]) =
      some (qState [(100, 1), (101, 0), (100, 2), (101, 0), (100, 3), (101, 0), (100, 4), (101, 0), (100, 5), (101, 0), (100, 6), (101, 0), (100, 7), (101, 0), (100, 8), (101, 0), (100, 9), (101, 0), (100, 10), (101, 0), (100, 11), (101, 0), (100, 12), (101, 0), (100, 13), (101, 0), (100, 14), (101, 0), (100, 15), (101, 0), (100, 16), (101, 1)] 15 16 99 true false [109, 1, 204, -1, 1001, 100, 1, 100, 1008, 100, 16, 101, 1006, 101, 0, 99]) := runNI_cons 3 _ _ _ s77 r78
  have r76 : runNI 5 (qState [(100, 1), (101, 0), (100, 2), (101, 0), (100, 3), (101, 0), (100, 4), (101, 0), (100, 5), (101, 0), (100, 6), (101, 0), (100, 7), (101, 0), (100, 8), (101, 0), (100, 9), (101, 0), (100, 10), (101, 0), (100, 11), (101, 0), (100, 12), (101, 0), (100, 13), (101, 0), (100, 14), (101, 0), (100, 15), (101, 0)] 2 16 0 true true [109, 1, 204, -1, 1001, 100, 1, 100, 1008, 100, 16, 101, 1006, 101, 0]) =
      some (qState [(100, 1), (101, 0), (100, 2), (101, 0), (100, 3), (101, 0), (100, 4), (101, 0), (100, 5), (101, 0), (100, 6), (101, 0), (100, 7), (101, 0), (100, 8), (101, 0), (100, 9), (101, 0), (100, 10), (101, 0), (100, 11), (101, 0), (100, 12), (101, 0), (100, 13), (101, 0), (100, 14), (101, 0), (100, 15), (101, 0), (100, 16), (101, 1)] 15 16 99 true false [109, 1, 204, -1, 1001, 100, 1, 100, 1008, 100, 16, 101, 1006, 101, 0, 99]) := runNI_cons 4 _ _ _ s76 r77
  have r75 : runNI 6 (qState [(100, 1), (101, 0), (100, 2), (101, 0), (100, 3), (101, 0), (100, 4), (101, 0), (100, 5), (101, 0), (100, 6), (101, 0), (100, 7), (101, 0), (100, 8), (101, 0), (100, 9), (101, 0), (100, 10), (101, 0), (100, 11), (101, 0), (100, 12), (101, 0), (100, 13), (101, 0), (100, 14), (101, 0), (100, 15), (101, 0)] 0 15 0 true true [109, 1, 204, -1, 1001, 100, 1, 100, 1008, 100, 16, 101, 1006, 101, 0]) =
      some (qState [(100, 1), (101, 0), (100, 2), (101, 0), (100, 3), (101, 0), (100, 4), (101, 0), (100, 5), (101, 0), (100, 6), (101, 0), (100, 7), (101, 0), (100, 8), (101, 0), (100, 9), (101, 0), (100, 10), (101, 0), (100, 11), (101, 0), (100, 12), (101, 0), (100, 13), (101, 0), (100, 14), (101, 0), (100, 15), (101, 0), (100, 16), (101, 1)] 15 16 99 true false [109, 1, 204, -1, 1001, 100, 1, 100, 1008, 100, 16, 101, 1006, 101, 0, 99]) := runNI_cons 5 _ _ _ s75 r76
  have r74 : runNI 7 (qState [(100, 1), (101, 0), (100, 2), (101, 0), (100, 3), (101, 0), (100, 4), (101, 0), (100, 5), (101, 0), (100, 6), (101, 0), (100, 7), (101, 0), (100, 8), (101, 0), (100, 9), (101, 0), (100, 10), (101, 0), (100, 11), (101, 0), (100, 12), (101, 0), (100, 13), (101, 0), (100, 14), (101, 0), (100, 15), (101, 0)] 12 15 0 true true [109, 1, 204, -1, 1001, 100, 1, 100, 1008, 100, 16, 101, 1006, 101, 0]) =
      some (qState [(100, 1), (101, 0), (100, 2), (101, 0), (100, 3), (101, 0), (100, 4), (101, 0), (100, 5), (101, 0), (100, 6), (101, 0), (100, 7), (101, 0), (100, 8), (101, 0), (100, 9), (101, 0), (100, 10), (101, 0), (100, 11), (101, 0), (100, 12), (101, 0), (100, 13), (101, 0), (100, 14), (101, 0), (100, 15), (101, 0), (100, 16), (101, 1)] 15 16 99 true false [109, 1, 204, -1, 1001, 100, 1, 100, 1008, 100, 16, 101, 1006, 101, 0, 99]) := runNI_cons 6 _ _ _ s74 r75
  have r73 : runNI 8 (qState [(100, 1), (101, 0), (100, 2), (101, 0), (100, 3), (101, 0), (100, 4), (101, 0), (100, 5), (101, 0), (100, 6), (101, 0), (100, 7), (101, 0), (100, 8), (101, 0), (100, 9), (101, 0), (100, 10), (101, 0), (100, 11), (101, 0), (100, 12), (101, 0), (100, 13), (101, 0), (100, 14), (101, 0), (100, 15)] 8 15 0 true true [109, 1, 204, -1, 1001, 100, 1, 100, 1008, 100, 16, 101, 1006, 101, 0]) =
      some (qState [(100, 1), (101, 0), (100, 2), (101, 0), (100, 3), (101, 0), (100, 4), (101, 0), (100, 5), (101, 0), (100, 6), (101, 0), (100, 7), (101, 0), (100, 8), (101, 0), (100, 9), (101, 0), (100, 10), (101, 0), (100, 11), (101, 0), (100, 12), (101, 0), (100, 13), (101, 0), (100, 14), (101, 0), (100, 15), (101, 0), (100, 16), (101, 1)] 15 16 99 true false [109, 1, 204, -1, 1001, 100, 1, 100, 1008, 100, 16, 101, 1006, 101, 0, 99]) := runNI_cons 7 _ _ _ s73 r74
  have r72 : runNI 9 (qState [(100, 1), (101, 0), (100, 2), (101, 0), (100, 3), (101, 0), (100, 4), (101, 0), (100, 5), (101, 0), (100, 6), (101, 0), (100, 7), (101, 0), (100, 8), (101, 0), (100, 9), (101, 0), (100, 10), (101, 0), (100, 11), (101, 0), (100, 12), (101, 0), (100, 13), (101, 0), (100, 14), (101, 0)] 4 15 0 true true [109, 1, 204, -1, 1001, 100, 1, 100, 1008, 100, 16, 101, 1006, 101, 0]) =
      some (qState [(100, 1), (101, 0), (100, 2), (101, 0), (100, 3), (101, 0), (100, 4), (101, 0), (100, 5), (101, 0), (100, 6), (101, 0), (100, 7), (101, 0), (100, 8), (101, 0), (100, 9), (101, 0), (100, 10), (101, 0), (100, 11), (101, 0), (100, 12), (101, 0), (100, 13), (101, 0), (100, 14), (101, 0), (100, 15), (101, 0), (100, 16), (101, 1)] 15 16 99 true false [109, 1, 204, -1, 1001, 100, 1, 100, 1008, 100, 16, 101, 1006, 101, 0, 99]) := runNI_cons 8 _ _ _ s72 r73
  have r71 : runNI 10 (qState [(100, 1), (101, 0), (100, 2), (101, 0), (100, 3), (101, 0), (100, 4), (101, 0), (100, 5), (101, 0), (100, 6), (101, 0), (100, 7), (101, 0), (100, 8), (101, 0), (100, 9), (101, 0), (100, 10), (101, 0), (100, 11), (101, 0), (100, 12), (101, 0), (100, 13), (101, 0), (100, 14), (101, 0)] 2 15 101 true true [109, 1, 204, -1, 1001, 100, 1, 100, 1008, 100, 16, 101, 1006, 101]) =
      some (qState [(100, 1), (101, 0), (100, 2), (101, 0), (100, 3), (101, 0), (100, 4), (101, 0), (100, 5), (101, 0), (100, 6), (101, 0), (100, 7), (101, 0), (100, 8), (101, 0), (100, 9), (101, 0), (100, 10), (101, 0), (100, 11), (101, 0), (100, 12), (101, 0), (100, 13), (101, 0), (100, 14), (101, 0), (100, 15), (101, 0), (100, 16), (101, 1)] 15 16 99 true false [109, 1, 204, -1, 1001, 100, 1, 100, 1008, 100, 16, 101, 1006, 101, 0, 99]) := runNI_cons 9 _ _ _ s71 r72
  have r70 : runNI 11 (qState [(100, 1), (101, 0), (100, 2), (101, 0), (100, 3), (101, 0), (100, 4), (101, 0), (100, 5), (101, 0), (100, 6), (101, 0), (100, 7), (101, 0), (100, 8), (101, 0), (100, 9), (101, 0), (100, 10), (101, 0), (100, 11), (101, 0), (100, 12), (101, 0), (100, 13), (101, 0), (100, 14), (101, 0)] 0 14 101 true true [109, 1, 204, -1, 1001, 100, 1, 100, 1008, 100, 16, 101, 1006, 101]) =
      some (qState [(100, 1), (101, 0), (100, 2), (101, 0), (100, 3), (101, 0), (100, 4), (101, 0), (100, 5), (101, 0), (100, 6), (101, 0), (100, 7), (101, 0), (100, 8), (101, 0), (100, 9), (101, 0), (100, 10), (101, 0), (100, 11), (101, 0), (100, 12), (101, 0), (100, 13), (101, 0), (100, 14), (101, 0), (100, 15), (101, 0), (100, 16), (101, 1)] 15 16 99 true false [109, 1, 204, -1, 1001, 100, 1, 100, 1008, 100, 16, 101, 1006, 101, 0, 99]) := runNI_cons 10 _ _ _ s70 r71
  have r69 : runNI 12 (qState [(100, 1), (101, 0), (100, 2), (101, 0), (100, 3), (101, 0), (100, 4), (101, 0), (100, 5), (101, 0), (100, 6), (101, 0), (100, 7), (101, 0), (100, 8), (101, 0), (100, 9), (101, 0), (100, 10), (101, 0), (100, 11), (101, 0), (100, 12), (101, 0), (100, 13), (101, 0), (100, 14), (101, 0)] 12 14 101 true true [109, 1, 204, -1, 1001, 100, 1, 100, 1008, 100, 16, 101, 1006, 101]) =
      some (qState [(100, 1), (101, 0), (100, 2), (101, 0), (100, 3), (101, 0), (100, 4), (101, 0), (100, 5), (101, 0), (100, 6), (101, 0), (100, 7), (101, 0), (100, 8), (101, 0), (100, 9), (101, 0), (100, 10), (101, 0), (100, 11), (101, 0), (100, 12), (101, 0), (100, 13), (101, 0), (100, 14), (101, 0), (100, 15), (101, 0), (100, 16), (101, 1)] 15 16 99 true false [109, 1, 204, -1, 1001, 100, 1, 100, 1008, 100, 16, 101, 1006, 101, 0, 99]) := runNI_cons 11 _ _ _ s69 r70
  have r68 : runNI 13 (qState [(100, 1), (101, 0), (100, 2), (101, 0), (100, 3), (101, 0), (100, 4), (101, 0), (100, 5), (101, 0), (100, 6), (101, 0), (100, 7), (101, 0), (100, 8), (101, 0), (100, 9), (101, 0), (100, 10), (101, 0), (100, 11), (101, 0), (100, 12), (101, 0), (100, 13), (101, 0), (100, 14)] 8 14 101 true true [109, 1, 204, -1, 1001, 100, 1, 100, 1008, 100, 16, 101, 1006, 101]) =
      some (qState [(100, 1), (101, 0), (100, 2), (101, 0), (100, 3), (101, 0), (100, 4), (101, 0), (100, 5), (101, 0), (100, 6), (101, 0), (100, 7), (101, 0), (100, 8), (101, 0), (100, 9), (101, 0), (100, 10), (101, 0), (100, 11), (101, 0), (100, 12), (101, 0), (100, 13), (101, 0), (100, 14), (101, 0), (100, 15), (101, 0), (100, 16), (101, 1)] 15 16 99 true false [109, 1, 204, -1, 1001, 100, 1, 100, 1008, 100, 16, 101, 1006, 101, 0, 99]) := runNI_cons 12 _ _ _ s68 r69
  have r67 : runNI 14 (qState [(100, 1), (101, 0), (100, 2), (101, 0), (100, 3), (101, 0), (100, 4), (101, 0), (100, 5), (101, 0), (100, 6), (101, 0), (100, 7), (101, 0), (100, 8), (101, 0), (100, 9), (101, 0), (100, 10), (101, 0), (100, 11), (101, 0), (100, 12), (101, 0), (100, 13), (101, 0)] 4 14 101 true true [109, 1, 204, -1, 1001, 100, 1, 100, 1008, 100, 16, 101, 1006, 101]) =
      some (qState [(100, 1), (101, 0), (100, 2), (101, 0), (100, 3), (101, 0), (100, 4), (101, 0), (100, 5), (101, 0), (100, 6), (101, 0), (100, 7), (101, 0), (100, 8), (101, 0), (100, 9), (101, 0), (100, 10), (101, 0), (100, 11), (101, 0), (100, 12), (101, 0), (100, 13), (101, 0), (100, 14), (101, 0), (100, 15), (101, 0), (100, 16), (101, 1)] 15 16 99 true false [109, 1, 204, -1, 1001, 100, 1, 100, 1008, 100, 16, 101, 1006, 101, 0, 99]) := runNI_cons 13 _ _ _ s67 r68
  have r66 : runNI 15 (qState [(100, 1), (101, 0), (100, 2), (101, 0), (100, 3), (101, 0), (100, 4), (101, 0), (100, 5), (101, 0), (100, 6), (101, 0), (100, 7), (101, 0), (100, 8), (101, 0), (100, 9), (101, 0), (100, 10), (101, 0), (100, 11), (101, 0), (100, 12), (101, 0), (100, 13), (101, 0)] 2 14 1006 true true [109, 1, 204, -1, 1001, 100, 1, 100, 1008, 100, 16, 101, 1006]) =
      some (qState [(100, 1), (101, 0), (100, 2), (101, 0), (100, 3), (101, 0), (100, 4), (101, 0), (100, 5), (101, 0), (100, 6), (101, 0), (100, 7), (101, 0), (100, 8), (101, 0), (100, 9), (101, 0), (100, 10), (101, 0), (100, 11), (101, 0), (100, 12), (101, 0), (100, 13), (101, 0), (100, 14), (101, 0), (100, 15), (101, 0), (100, 16), (101, 1)] 15 16 99 true false [109, 1, 204, -1, 1001, 100, 1, 100, 1008, 100, 16, 101, 1006, 101, 0, 99]) := runNI_cons 14 _ _ _ s66 r67
  have r65 : runNI 16 (qState [(100, 1), (101, 0), (100, 2), (101, 0), (100, 3), (101, 0), (100, 4), (101, 0), (100, 5), (101, 0), (100, 6), (101, 0), (100, 7), (101, 0), (100, 8), (101, 0), (100, 9), (101, 0), (100, 10), (101, 0), (100, 11), (101, 0), (100, 12), (101, 0), (100, 13), (101, 0)] 0 13 1006 true true [109, 1, 204, -1, 1001, 100, 1, 100, 1008, 100, 16, 101, 1006]) =
      some (qState [(100, 1), (101, 0), (100, 2), (101, 0), (100, 3), (101, 0), (100, 4), (101, 0), (100, 5), (101, 0), (100, 6), (101, 0), (100, 7), (101, 0), (100, 8), (101, 0), (100, 9), (101, 0), (100, 10), (101, 0), (100, 11), (101, 0), (100, 12), (101, 0), (100, 13), (101, 0), (100, 14), (101, 0), (100, 15), (101, 0), (100, 16), (101, 1)] 15 16 99 true false [109, 1, 204, -1, 1001, 100, 1, 100, 1008, 100, 16, 101, 1006, 101, 0, 99]) := runNI_cons 15 _ _ _ s65 r66
  have r64 : runNI 17 (qState [(100, 1), (101, 0), (100, 2), (101, 0), (100, 3), (101, 0), (100, 4), (101, 0), (100, 5), (101, 0), (100, 6), (101, 0), (100, 7), (101, 0), (100, 8), (101, 0), (100, 9), (101, 0), (100, 10), (101, 0), (100, 11), (101, 0), (100, 12), (101, 0), (100, 13), (101, 0)] 12 13 1006 true true [109, 1, 204, -1, 1001, 100, 1, 100, 1008, 100, 16, 101, 1006]) =
      some (qState [(100, 1), (101, 0), (100, 2), (101, 0), (100, 3), (101, 0), (100, 4), (101, 0), (100, 5), (101, 0), (100, 6), (101, 0), (100, 7), (101, 0), (100, 8), (101, 0), (100, 9), (101, 0), (100, 10), (101, 0), (100, 11), (101, 0), (100, 12), (101, 0), (100, 13), (101, 0), (100, 14), (101, 0), (100, 15), (101, 0), (100, 16), (101, 1)] 15 16 99 true false [109, 1, 204, -1, 1001, 100, 1, 100, 1008, 100, 16, 101, 1006, 101, 0, 99]) := runNI_cons 16 _ _ _ s64 r65
  have r63 : runNI 18 (qState [(100, 1), (101, 0), (100, 2), (101, 0), (100, 3), (101, 0), (100, 4), (101, 0), (100, 5), (101, 0), (100, 6), (101, 0), (100, 7), (101, 0), (100, 8), (101, 0), (100, 9), (101, 0), (100, 10), (101, 0), (100, 11), (101, 0), (100, 12), (101, 0), (100, 13)] 8 13 1006 true true [109, 1, 204, -1, 1001, 100, 1, 100, 1008, 100, 16, 101, 1006]) =
      some (qState [(100, 1), (101, 0), (100, 2), (101, 0), (100, 3), (101, 0), (100, 4), (101, 0), (100, 5), (101, 0), (100, 6), (101, 0), (100, 7), (101, 0), (100, 8), (101, 0), (100, 9), (101, 0), (100, 10), (101, 0), (100, 11), (101, 0), (100, 12), (101, 0), (100, 13), (101, 0), (100, 14), (101, 0), (100, 15), (101, 0), (100, 16), (101, 1)] 15 16 99 true false [109, 1, 204, -1, 1001, 100, 1, 100, 1008, 100, 16, 101, 1006, 101, 0, 99]) := runNI_cons 17 _ _ _ s63 r64
  have r62 : runNI 19 (qState [(100, 1), (101, 0), (100, 2), (101, 0), (100, 3), (101, 0), (100, 4), (101, 0), (100, 5), (101, 0), (100, 6), (101, 0), (100, 7), (101, 0), (100, 8), (101, 0), (100, 9), (101, 0), (100, 10), (101, 0), (100, 11), (101, 0), (100, 12), (101, 0)] 4 13 1006 true true [109, 1, 204, -1, 1001, 100, 1, 100, 1008, 100, 16, 101, 1006]) =
      some (qState [(100, 1), (101, 0), (100, 2), (101, 0), (100, 3), (101, 0), (100, 4), (101, 0), (100, 5), (101, 0), (100, 6), (101, 0), (100, 7), (101, 0), (100, 8), (101, 0), (100, 9), (101, 0), (100, 10), (101, 0), (100, 11), (101, 0), (100, 12), (101, 0), (100, 13), (101, 0), (100, 14), (101, 0), (100, 15), (101, 0), (100, 16), (101, 1)] 15 16 99 true false [109, 1, 204, -1, 1001, 100, 1, 100, 1008, 100, 16, 101, 1006, 101, 0, 99]) := runNI_cons 18 _ _ _ s62 r63
  have r61 : runNI 20 (qState [(100, 1), (101, 0), (100, 2), (101, 0), (100, 3), (101, 0), (100, 4), (101, 0), (100, 5), (101, 0), (100, 6), (101, 0), (100, 7), (101, 0), (100, 8), (101, 0), (100, 9), (101, 0), (100, 10), (101, 0), (100, 11), (101, 0), (100, 12), (101, 0)] 2 13 101 true true [109, 1, 204, -1, 1001, 100, 1, 100, 1008, 100, 16, 101]) =
      some (qState [(100, 1), (101, 0), (100, 2), (101, 0), (100, 3), (101, 0), (100, 4), (101, 0), (100, 5), (101, 0), (100, 6), (101, 0), (100, 7), (101, 0), (100, 8), (101, 0), (100, 9), (101, 0), (100, 10), (101, 0), (100, 11), (101, 0), (100, 12), (101, 0), (100, 13), (101, 0), (100, 14), (101, 0), (100, 15), (101, 0), (100, 16), (101, 1)] 15 16 99 true false [109, 1, 204, -1, 1001, 100, 1, 100, 1008, 100, 16, 101, 1006, 101, 0, 99]) := runNI_cons 19 _ _ _ s61 r62
  have r60 : runNI 21 (qState [(100, 1), (101, 0), (100, 2), (101, 0), (100, 3), (101, 0), (100, 4), (101, 0), (100, 5), (101, 0), (100, 6), (101, 0), (100, 7), (101, 0), (100, 8), (101, 0), (100, 9), (101, 0), (100, 10), (101, 0), (100, 11), (101, 0), (100, 12), (101, 0)] 0 12 101 true true [109, 1, 204, -1, 1001, 100, 1, 100, 1008, 100, 16, 101]) =
      some (qState [(100, 1), (101, 0), (100, 2), (101, 0), (100, 3), (101, 0), (100, 4), (101, 0), (100, 5), (101, 0), (100, 6), (101, 0), (100, 7), (101, 0), (100, 8), (101, 0), (100, 9), (101, 0), (100, 10), (101, 0), (100, 11), (101, 0), (100, 12), (101, 0), (100, 13), (101, 0), (100, 14), (101, 0), (100, 15), (101, 0), (100, 16), (101, 1)] 15 16 99 true false [109, 1, 204, -1, 1001, 100, 1, 100, 1008, 100, 16, 101, 1006, 101, 0, 99]) := runNI_cons 20 _ _ _ s60 r61
  have r59 : runNI 22 (qState [(100, 1), (101, 0), (100, 2), (101, 0), (100, 3), (101, 0), (100, 4), (101, 0), (100, 5), (101, 0), (100, 6), (101, 0), (100, 7), (101, 0), (100, 8), (101, 0), (100, 9), (101, 0), (100, 10), (101, 0), (100, 11), (101, 0), (100, 12), (101, 0)] 12 12 101 true true [109, 1, 204, -1, 1001, 100, 1, 100, 1008, 100, 16, 101]) =
      some (qState [(100, 1), (101, 0), (100, 2), (101, 0), (100, 3), (101, 0), (100, 4), (101, 0), (100, 5), (101, 0), (100, 6), (101, 0), (100, 7), (101, 0), (100, 8), (101, 0), (100, 9), (101, 0), (100, 10), (101, 0), (100, 11), (101, 0), (100, 12), (101, 0), (100, 13), (101, 0), (100, 14), (101, 0), (100, 15), (101, 0), (100, 16), (101, 1)] 15 16 99 true false [109, 1, 204, -1, 1001, 100, 1, 100, 1008, 100, 16, 101, 1006, 101, 0, 99]) := runNI_cons 21 _ _ _ s59 r60
  have r58 : runNI 23 (qState [(100, 1), (101, 0), (100, 2), (101, 0), (100, 3), (101, 0), (100, 4), (101, 0), (100, 5), (101, 0), (100, 6), (101, 0), (100, 7), (101, 0), (100, 8), (101, 0), (100, 9), (101, 0), (100, 10), (101, 0), (100, 11), (101, 0), (100, 12)] 8 12 101 true true [109, 1, 204, -1, 1001, 100, 1, 100, 1008, 100, 16, 101]) =
      some (qState [(100, 1), (101, 0), (100, 2), (101, 0), (100, 3), (101, 0), (100, 4), (101, 0), (100, 5), (101, 0), (100, 6), (101, 0), (100, 7), (101, 0), (100, 8), (101, 0), (100, 9), (101, 0), (100, 10), (101, 0), (100, 11), (101, 0), (100, 12), (101, 0), (100, 13), (101, 0), (100, 14), (101, 0), (100, 15), (101, 0), (100, 16), (101, 1)] 15 16 99 true false [109, 1, 204, -1, 1001, 100, 1, 100, 1008, 100, 16, 101, 1006, 101, 0, 99]) := runNI_cons 22 _ _ _ s58 r59
  have r57 : runNI 24 (qState [(100, 1), (101, 0), (100, 2), (101, 0), (100, 3), (101, 0), (100, 4), (101, 0), (100, 5), (101, 0), (100, 6), (101, 0), (100, 7), (101, 0), (100, 8), (101, 0), (100, 9), (101, 0), (100, 10), (101, 0), (100, 11), (101, 0)] 4 12 101 true true [109, 1, 204, -1, 1001, 100, 1, 100, 1008, 100, 16, 101]) =
      some (qState [(100, 1), (101, 0), (100, 2), (101, 0), (100, 3), (101, 0), (100, 4), (101, 0), (100, 5), (101, 0), (100, 6), (101, 0), (100, 7), (101, 0), (100, 8), (101, 0), (100, 9), (101, 0), (100, 10), (101, 0), (100, 11), (101, 0), (100, 12), (101, 0), (100, 13), (101, 0), (100, 14), (101, 0), (100, 15), (101, 0), (100, 16), (101, 1)] 15 16 99 true false [109, 1, 204, -1, 1001, 100, 1, 100, 1008, 100, 16, 101, 1006, 101, 0, 99]) := runNI_cons 23 _ _ _ s57 r58
  have r56 : runNI 25 (qState [(100, 1), (101, 0), (100, 2), (101, 0), (100, 3), (101, 0), (100, 4), (101, 0), (100, 5), (101, 0), (100, 6), (101, 0), (100, 7), (101, 0), (100, 8), (101, 0), (100, 9), (101, 0), (100, 10), (101, 0), (100, 11), (101, 0)] 2 12 16 true true [109, 1, 204, -1, 1001, 100, 1, 100, 1008, 100, 16]) =
      some (qState [(100, 1), (101, 0), (100, 2), (101, 0), (100, 3), (101, 0), (100, 4), (101, 0), (100, 5), (101, 0), (100, 6), (101, 0), (100, 7), (101, 0), (100, 8), (101, 0), (100, 9), (101, 0), (100, 10), (101, 0), (100, 11), (101, 0), (100, 12), (101, 0), (100, 13), (101, 0), (100, 14), (101, 0), (100, 15), (101, 0), (100, 16), (101, 1)] 15 16 99 true false [109, 1, 204, -1, 1001, 100, 1, 100, 1008, 100, 16, 101, 1006, 101, 0, 99]) := runNI_cons 24 _ _ _ s56 r57
  have r55 : runNI 26 (qState [(100, 1), (101, 0), (100, 2), (101, 0), (100, 3), (101, 0), (100, 4), (101, 0), (100, 5), (101, 0), (100, 6), (101, 0), (100, 7), (101, 0), (100, 8), (101, 0), (100, 9), (101, 0), (100, 10), (101, 0), (100, 11), (101, 0)] 0 11 16 true true [109, 1, 204, -1, 1001, 100, 1, 100, 1008, 100, 16]) =
      some (qState [(100, 1), (101, 0), (100, 2), (101, 0), (100, 3), (101, 0), (100, 4), (101, 0), (100, 5), (101, 0), (100, 6), (101, 0), (100, 7), (101, 0), (100, 8), (101, 0), (100, 9), (101, 0), (100, 10), (101, 0), (100, 11), (101, 0), (100, 12), (101, 0), (100, 13), (101, 0), (100, 14), (101, 0), (100, 15), (101, 0), (100, 16), (101, 1)] 15 16 99 true false [109, 1, 204, -1, 1001, 100, 1, 100, 1008, 100, 16, 101, 1006, 101, 0, 99]) := runNI_cons 25 _ _ _ s55 r56
  have r54 : runNI 27 (qState [(100, 1), (101, 0), (100, 2), (101, 0), (100, 3), (101, 0), (100, 4), (101, 0), (100, 5), (101, 0), (100, 6), (101, 0), (100, 7), (101, 0), (100, 8), (101, 0), (100, 9), (101, 0), (100, 10), (101, 0), (100, 11), (101, 0)] 12 11 16 true true [109, 1, 204, -1, 1001, 100, 1, 100, 1008, 100, 16]) =
      some (qState [(100, 1), (101, 0), (100, 2), (101, 0), (100, 3), (101, 0), (100, 4), (101, 0), (100, 5), (101, 0), (100, 6), (101, 0), (100, 7), (101, 0), (100, 8), (101, 0), (100, 9), (101, 0), (100, 10), (101, 0), (100, 11), (101, 0), (100, 12), (101, 0), (100, 13), (101, 0), (100, 14), (101, 0), (100, 15), (101, 0), (100, 16), (101, 1)] 15 16 99 true false [109, 1, 204, -1, 1001, 100, 1, 100, 1008, 100, 16, 101, 1006, 101, 0, 99]) := runNI_cons 26 _ _ _ s54 r55
  have r53 : runNI 28 (qState [(100, 1), (101, 0), (100, 2), (101, 0), (100, 3), (101, 0), (100, 4), (101, 0), (100, 5), (101, 0), (100, 6), (101, 0), (100, 7), (101, 0), (100, 8), (101, 0), (100, 9), (101, 0), (100, 10), (101, 0), (100, 11)] 8 11 16 true true [109, 1, 204, -1, 1001, 100, 1, 100, 1008, 100, 16]) =
      some (qState [(100, 1), (101, 0), (100, 2), (101, 0), (100, 3), (101, 0), (100, 4), (101, 0), (100, 5), (101, 0), (100, 6), (101, 0), (100, 7), (101, 0), (100, 8), (101, 0), (100, 9), (101, 0), (100, 10), (101, 0), (100, 11), (101, 0), (100, 12), (101, 0), (100, 13), (101, 0), (100, 14), (101, 0), (100, 15), (101, 0), (100, 16), (101, 1)] 15 16 99 true false [109, 1, 204, -1, 1001, 100, 1, 100, 1008, 100, 16, 101, 1006, 101, 0, 99]) := runNI_cons 27 _ _ _ s53 r54
  have r52 : runNI 29 (qState [(100, 1), (101, 0), (100, 2), (101, 0), (100, 3), (101, 0), (100, 4), (101, 0), (100, 5), (101, 0), (100, 6), (101, 0), (100, 7), (101, 0), (100, 8), (101, 0), (100, 9), (101, 0), (100, 10), (101, 0)] 4 11 16 true true [109, 1, 204, -1, 1001, 100, 1, 100, 1008, 100, 16]) =
      some (qState [(100, 1), (101, 0), (100, 2), (101, 0), (100, 3), (101, 0), (100, 4), (101, 0), (100, 5), (101, 0), (100, 6), (101, 0), (100, 7), (101, 0), (100, 8), (101, 0), (100, 9), (101, 0), (100, 10), (101, 0), (100, 11), (101, 0), (100, 12), (101, 0), (100, 13), (101, 0), (100, 14), (101, 0), (100, 15), (101, 0), (100, 16), (101, 1)] 15 16 99 true false [109, 1, 204, -1, 1001, 100, 1, 100, 1008, 100, 16, 101, 1006, 101, 0, 99]) := runNI_cons 28 _ _ _ s52 r53
  have r51 : runNI 30 (qState [(100, 1), (101, 0), (100, 2), (101, 0), (100, 3), (101, 0), (100, 4), (101, 0), (100, 5), (101, 0), (100, 6), (101, 0), (100, 7), (101, 0), (100, 8), (101, 0), (100, 9), (101, 0), (100, 10), (101, 0)] 2 11 100 true true [109, 1, 204, -1, 1001, 100, 1, 100, 1008, 100]) =
      some (qState [(100, 1), (101, 0), (100, 2), (101, 0), (100, 3), (101, 0), (100, 4), (101, 0), (100, 5), (101, 0), (100, 6), (101, 0), (100, 7), (101, 0), (100, 8), (101, 0), (100, 9), (101, 0), (100, 10), (101, 0), (100, 11), (101, 0), (100, 12), (101, 0), (100, 13), (101, 0), (100, 14), (101, 0), (100, 15), (101, 0), (100, 16), (101, 1)] 15 16 99 true false [109, 1, 204, -1, 1001, 100, 1, 100, 1008, 100, 16, 101, 1006, 101, 0, 99]) := runNI_cons 29 _ _ _ s51 r52
  have r50 : runNI 31 (qState [(100, 1), (101, 0), (100, 2), (101, 0), (100, 3), (101, 0), (100, 4), (101, 0), (100, 5), (101, 0), (100, 6), (101, 0), (100, 7), (101, 0), (100, 8), (101, 0), (100, 9), (101, 0), (100, 10), (101, 0)] 0 10 100 true true [109, 1, 204, -1, 1001, 100, 1, 100, 1008, 100]) =
      some (qState [(100, 1), (101, 0), (100, 2), (101, 0), (100, 3), (101, 0), (100, 4), (101, 0), (100, 5), (101, 0), (100, 6), (101, 0), (100, 7), (101, 0), (100, 8), (101, 0), (100, 9), (101, 0), (100, 10), (101, 0), (100, 11), (101, 0), (100, 12), (101, 0), (100, 13), (101, 0), (100, 14), (101, 0), (100, 15), (101, 0), (100, 16), (101, 1)] 15 16 99 true false [109, 1, 204, -1, 1001, 100, 1, 100, 1008, 100, 16, 101, 1006, 101, 0, 99]) := runNI_cons 30 _ _ _ s50 r51
  have r49 : runNI 32 (qState [(100, 1), (101, 0), (100, 2), (101, 0), (100, 3), (101, 0), (100, 4), (101, 0), (100, 5), (101, 0), (100, 6), (101, 0), (100, 7), (101, 0), (100, 8), (101, 0), (100, 9), (101, 0), (100, 10), (101, 0)] 12 10 100 true true [109, 1, 204, -1, 1001, 100, 1, 100, 1008, 100]) =
      some (qState [(100, 1), (101, 0), (100, 2), (101, 0), (100, 3), (101, 0), (100, 4), (101, 0), (100, 5), (101, 0), (100, 6), (101, 0), (100, 7), (101, 0), (100, 8), (101, 0), (100, 9), (101, 0), (100, 10), (101, 0), (100, 11), (101, 0), (100, 12), (101, 0), (100, 13), (101, 0), (100, 14), (101, 0), (100, 15), (101, 0), (100, 16), (101, 1)] 15 16 99 true false [109, 1, 204, -1, 1001, 100, 1, 100, 1008, 100, 16, 101, 1006, 101, 0, 99]) := runNI_cons 31 _ _ _ s49 r50
  have r48 : runNI 33 (qState [(100, 1), (101, 0), (100, 2), (101, 0), (100, 3), (101, 0), (100, 4), (101, 0), (100, 5), (101, 0), (100, 6), (101, 0), (100, 7), (101, 0), (100, 8), (101, 0), (100, 9), (101, 0), (100, 10)] 8 10 100 true true [109, 1, 204, -1, 1001, 100, 1, 100, 1008, 100]) =
      some (qState [(100, 1), (101, 0), (100, 2), (101, 0), (100, 3), (101, 0), (100, 4), (101, 0), (100, 5), (101, 0), (100, 6), (101, 0), (100, 7), (101, 0), (100, 8), (101, 0), (100, 9), (101, 0), (100, 10), (101, 0), (100, 11), (101, 0), (100, 12), (101, 0), (100, 13), (101, 0), (100, 14), (101, 0), (100, 15), (101, 0), (100, 16), (101, 1)] 15 16 99 true false [109, 1, 204, -1, 1001, 100, 1, 100, 1008, 100, 16, 101, 1006, 101, 0, 99]) := runNI_cons 32 _ _ _ s48 r49
  have r47 : runNI 34 (qState [(100, 1), (101, 0), (100, 2), (101, 0), (100, 3), (101, 0), (100, 4), (101, 0), (100, 5), (101, 0), (100, 6), (101, 0), (100, 7), (101, 0), (100, 8), (101, 0), (100, 9), (101, 0)] 4 10 100 true true [109, 1, 204, -1, 1001, 100, 1, 100, 1008, 100]) =
      some (qState [(100, 1), (101, 0), (100, 2), (101, 0), (100, 3), (101, 0), (100, 4), (101, 0), (100, 5), (101, 0), (100, 6), (101, 0), (100, 7), (101, 0), (100, 8), (101, 0), (100, 9), (101, 0), (100, 10), (101, 0), (100, 11), (101, 0), (100, 12), (101, 0), (100, 13), (101, 0), (100, 14), (101, 0), (100, 15), (101, 0), (100, 16), (101, 1)] 15 16 99 true false [109, 1, 204, -1, 1001, 100, 1, 100, 1008, 100, 16, 101, 1006, 101, 0, 99]) := runNI_cons 33 _ _ _ s47 r48
  have r46 : runNI 35 (qState [(100, 1), (101, 0), (100, 2), (101, 0), (100, 3), (101, 0), (100, 4), (101, 0), (100, 5), (101, 0), (100, 6), (101, 0), (100, 7), (101, 0), (100, 8), (101, 0), (100, 9), (101, 0)] 2 10 1008 true true [109, 1, 204, -1, 1001, 100, 1, 100, 1008]) =
      some (qState [(100, 1), (101, 0), (100, 2), (101, 0), (100, 3), (101, 0), (100, 4), (101, 0), (100, 5), (101, 0), (100, 6), (101, 0), (100, 7), (101, 0), (100, 8), (101, 0), (100, 9), (101, 0), (100, 10), (101, 0), (100, 11), (101, 0), (100, 12), (101, 0), (100, 13), (101, 0), (100, 14), (101, 0), (100, 15), (101, 0), (100, 16), (101, 1)] 15 16 99 true false [109, 1, 204, -1, 1001, 100, 1, 100, 1008, 100, 16, 101, 1006, 101, 0, 99]) := runNI_cons 34 _ _ _ s46 r47
  have r45 : runNI 36 (qState [(100, 1), (101, 0), (100, 2), (101, 0), (100, 3), (101, 0), (100, 4), (101, 0), (100, 5), (101, 0), (100, 6), (101, 0), (100, 7), (101, 0), (100, 8), (101, 0), (100, 9), (101, 0)] 0 9 1008 true true [109, 1, 204, -1, 1001, 100, 1, 100, 1008]) =
      some (qState [(100, 1), (101, 0), (100, 2), (101, 0), (100, 3), (101, 0), (100, 4), (101, 0), (100, 5), (101, 0), (100, 6), (101, 0), (100, 7), (101, 0), (100, 8), (101, 0), (100, 9), (101, 0), (100, 10), (101, 0), (100, 11), (101, 0), (100, 12), (101, 0), (100, 13), (101, 0), (100, 14), (101, 0), (100, 15), (101, 0), (100, 16), (101, 1)] 15 16 99 true false [109, 1, 204, -1, 1001, 100, 1, 100, 1008, 100, 16, 101, 1006, 101, 0, 99]) := runNI_cons 35 _ _ _ s45 r46
  have r44 : runNI 37 (qState [(100, 1), (101, 0), (100, 2), (101, 0), (100, 3), (101, 0), (100, 4), (101, 0), (100, 5), (101, 0), (100, 6), (101, 0), (100, 7), (101, 0), (100, 8), (101, 0), (100, 9), (101, 0)] 12 9 1008 true true [109, 1, 204, -1, 1001, 100, 1, 100, 1008]) =
      some (qState [(100, 1), (101, 0), (100, 2), (101, 0), (100, 3), (101, 0), (100, 4), (101, 0), (100, 5), (101, 0), (100, 6), (101, 0), (100, 7), (101, 0), (100, 8), (101, 0), (100, 9), (101, 0), (100, 10), (101, 0), (100, 11), (101, 0), (100, 12), (101, 0), (100, 13), (101, 0), (100, 14), (101, 0), (100, 15), (101, 0), (100, 16), (101, 1)] 15 16 99 true false [109, 1, 204, -1, 1001, 100, 1, 100, 1008, 100, 16, 101, 1006, 101, 0, 99]) := runNI_cons 36 _ _ _ s44 r45
  have r43 : runNI 38 (qState [(100, 1), (101, 0), (100, 2), (101, 0), (100, 3), (101, 0), (100, 4), (101, 0), (100, 5), (101, 0), (100, 6), (101, 0), (100, 7), (101, 0), (100, 8), (101, 0), (100, 9)] 8 9 1008 true true [109, 1, 204, -1, 1001, 100, 1, 100, 1008]) =
      some (qState [(100, 1), (101, 0), (100, 2), (101, 0), (100, 3), (101, 0), (100, 4), (101, 0), (100, 5), (101, 0), (100, 6), (101, 0), (100, 7), (101, 0), (100, 8), (101, 0), (100, 9), (101, 0), (100, 10), (101, 0), (100, 11), (101, 0), (100, 12), (101, 0), (100, 13), (101, 0), (100, 14), (101, 0), (100, 15), (101, 0), (100, 16), (101, 1)] 15 16 99 true false [109, 1, 204, -1, 1001, 100, 1, 100, 1008, 100, 16, 101, 1006, 101, 0, 99]) := runNI_cons 37 _ _ _ s43 r44
  have r42 : runNI 39 (qState [(100, 1), (101, 0), (100, 2), (101, 0), (100, 3), (101, 0), (100, 4), (101, 0), (100, 5), (101, 0), (100, 6), (101, 0), (100, 7), (101, 0), (100, 8), (101, 0)] 4 9 1008 true true [109, 1, 204, -1, 1001, 100, 1, 100, 1008]) =
      some (qState [(100, 1), (101, 0), (100, 2), (101, 0), (100, 3), (101, 0), (100, 4), (101, 0), (100, 5), (101, 0), (100, 6), (101, 0), (100, 7), (101, 0), (100, 8), (101, 0), (100, 9), (101, 0), (100, 10), (101, 0), (100, 11), (101, 0), (100, 12), (101, 0), (100, 13), (101, 0), (100, 14), (101, 0), (100, 15), (101, 0), (100, 16), (101, 1)] 15 16 99 true false [109, 1, 204, -1, 1001, 100, 1, 100, 1008, 100, 16, 101, 1006, 101, 0, 99]) := runNI_cons 38 _ _ _ s42 r43
  have r41 : runNI 40 (qState [(100, 1), (101, 0), (100, 2), (101, 0), (100, 3), (101, 0), (100, 4), (101, 0), (100, 5), (101, 0), (100, 6), (101, 0), (100, 7), (101, 0), (100, 8), (101, 0)] 2 9 100 true true [109, 1, 204, -1, 1001, 100, 1, 100]) =
      some (qState [(100, 1), (101, 0), (100, 2), (101, 0), (100, 3), (101, 0), (100, 4), (101, 0), (100, 5), (101, 0), (100, 6), (101, 0), (100, 7), (101, 0), (100, 8), (101, 0), (100, 9), (101, 0), (100, 10), (101, 0), (100, 11), (101, 0), (100, 12), (101, 0), (100, 13), (101, 0), (100, 14), (101, 0), (100, 15), (101, 0), (100, 16), (101, 1)] 15 16 99 true false [109, 1, 204, -1, 1001, 100, 1, 100, 1008, 100, 16, 101, 1006, 101, 0, 99]) := runNI_cons 39 _ _ _ s41 r42
  have r40 : runNI 41 (qState [(100, 1), (101, 0), (100, 2), (101, 0), (100, 3), (101, 0), (100, 4), (101, 0), (100, 5), (101, 0), (100, 6), (101, 0), (100, 7), (101, 0), (100, 8), (101, 0)] 0 8 100 true true [109, 1, 204, -1, 1001, 100, 1, 100]) =
      some (qState [(100, 1), (101, 0), (100, 2), (101, 0), (100, 3), (101, 0), (100, 4), (101, 0), (100, 5), (101, 0), (100, 6), (101, 0), (100, 7), (101, 0), (100, 8), (101, 0), (100, 9), (101, 0), (100, 10), (101, 0), (100, 11), (101, 0), (100, 12), (101, 0), (100, 13), (101, 0), (100, 14), (101, 0), (100, 15), (101, 0), (100, 16), (101, 1)] 15 16 99 true false [109, 1, 204, -1, 1001, 100, 1, 100, 1008, 100, 16, 101, 1006, 101, 0, 99]) := runNI_cons 40 _ _ _ s40 r41
  have r39 : runNI 42 (qState [(100, 1), (101, 0), (100, 2), (101, 0), (100, 3), (101, 0), (100, 4), (101, 0), (100, 5), (101, 0), (100, 6), (101, 0), (100, 7), (101, 0), (100, 8), (101, 0)] 12 8 100 true true [109, 1, 204, -1, 1001, 100, 1, 100]) =
      some (qState [(100, 1), (101, 0), (100, 2), (101, 0), (100, 3), (101, 0), (100, 4), (101, 0), (100, 5), (101, 0), (100, 6), (101, 0), (100, 7), (101, 0), (100, 8), (101, 0), (100, 9), (101, 0), (100, 10), (101, 0), (100, 11), (101, 0), (100, 12), (101, 0), (100, 13), (101, 0), (100, 14), (101, 0), (100, 15), (101, 0), (100, 16), (101, 1)] 15 16 99 true false [109, 1, 204, -1, 1001, 100, 1, 100, 1008, 100, 16, 101, 1006, 101, 0, 99]) := runNI_cons 41 _ _ _ s39 r40
  have r38 : runNI 43 (qState [(100, 1), (101, 0), (100, 2), (101, 0), (100, 3), (101, 0), (100, 4), (101, 0), (100, 5), (101, 0), (100, 6), (101, 0), (100, 7), (101, 0), (100, 8)] 8 8 100 true true [109, 1, 204, -1, 1001, 100, 1, 100]) =
      some (qState [(100, 1), (101, 0), (100, 2), (101, 0), (100, 3), (101, 0), (100, 4), (101, 0), (100, 5), (101, 0), (100, 6), (101, 0), (100, 7), (101, 0), (100, 8), (101, 0), (100, 9), (101, 0), (100, 10), (101, 0), (100, 11), (101, 0), (100, 12), (101, 0), (100, 13), (101, 0), (100, 14), (101, 0), (100, 15), (101, 0), (100, 16), (101, 1)] 15 16 99 true false [109, 1, 204, -1, 1001, 100, 1, 100, 1008, 100, 16, 101, 1006, 101, 0, 99]) := runNI_cons 42 _ _ _ s38 r39
  have r37 : runNI 44 (qState [(100, 1), (101, 0), (100, 2), (101, 0), (100, 3), (101, 0), (100, 4), (101, 0), (100, 5), (101, 0), (100, 6), (101, 0), (100, 7), (101, 0)] 4 8 100 true true [109, 1, 204, -1, 1001, 100, 1, 100]) =
      some (qState [(100, 1), (101, 0), (100, 2), (101, 0), (100, 3), (101, 0), (100, 4), (101, 0), (100, 5), (101, 0), (100, 6), (101, 0), (100, 7), (101, 0), (100, 8), (101, 0), (100, 9), (101, 0), (100, 10), (101, 0), (100, 11), (101, 0), (100, 12), (101, 0), (100, 13), (101, 0), (100, 14), (101, 0), (100, 15), (101, 0), (100, 16), (101, 1)] 15 16 99 true false [109, 1, 204, -1, 1001, 100, 1, 100, 1008, 100, 16, 101, 1006, 101, 0, 99]) := runNI_cons 43 _ _ _ s37 r38
  have r36 : runNI 45 (qState [(100, 1), (101, 0), (100, 2), (101, 0), (100, 3), (101, 0), (100, 4), (101, 0), (100, 5), (101, 0), (100, 6), (101, 0), (100, 7), (101, 0)] 2 8 1 true true [109, 1, 204, -1, 1001, 100, 1]) =
      some (qState [(100, 1), (101, 0), (100, 2), (101, 0), (100, 3), (101, 0), (100, 4), (101, 0), (100, 5), (101, 0), (100, 6), (101, 0), (100, 7), (101, 0), (100, 8), (101, 0), (100, 9), (101, 0), (100, 10), (101, 0), (100, 11), (101, 0), (100, 12), (101, 0), (100, 13), (101, 0), (100, 14), (101, 0), (100, 15), (101, 0), (100, 16), (101, 1)] 15 16 99 true false [109, 1, 204, -1, 1001, 100, 1, 100, 1008, 100, 16, 101, 1006, 101, 0, 99]) := runNI_cons 44 _ _ _ s36 r37
  have r35 : runNI 46 (qState [(100, 1), (101, 0), (100, 2), (101, 0), (100, 3), (101, 0), (100, 4), (101, 0), (100, 5), (101, 0), (100, 6), (101, 0), (100, 7), (101, 0)] 0 7 1 true true [109, 1, 204, -1, 1001, 100, 1]) =
      some (qState [(100, 1), (101, 0), (100, 2), (101, 0), (100, 3), (101, 0), (100, 4), (101, 0), (100, 5), (101, 0), (100, 6), (101, 0), (100, 7), (101, 0), (100, 8), (101, 0), (100, 9), (101, 0), (100, 10), (101, 0), (100, 11), (101, 0), (100, 12), (101, 0), (100, 13), (101, 0), (100, 14), (101, 0), (100, 15), (101, 0), (100, 16), (101, 1)] 15 16 99 true false [109, 1, 204, -1, 1001, 100, 1, 100, 1008, 100, 16, 101, 1006, 101, 0, 99]) := runNI_cons 45 _ _ _ s35 r36
  have r34 : runNI 47 (qState [(100, 1), (101, 0), (100, 2), (101, 0), (100, 3), (101, 0), (100, 4), (101, 0), (100, 5), (101, 0), (100, 6), (101, 0), (100, 7), (101, 0)] 12 7 1 true true [109, 1, 204, -1, 1001, 100, 1]) =
      some (qState [(100, 1), (101, 0), (100, 2), (101, 0), (100, 3), (101, 0), (100, 4), (101, 0), (100, 5), (101, 0), (100, 6), (101, 0), (100, 7), (101, 0), (100, 8), (101, 0), (100, 9), (101, 0), (100, 10), (101, 0), (100, 11), (101, 0), (100, 12), (101, 0), (100, 13), (101, 0), (100, 14), (101, 0), (100, 15), (101, 0), (100, 16), (101, 1)] 15 16 99 true false [109, 1, 204, -1, 1001, 100, 1, 100, 1008, 100, 16, 101, 1006, 101, 0, 99]) := runNI_cons 46 _ _ _ s34 r35
  have r33 : runNI 48 (qState [(100, 1), (101, 0), (100, 2), (101, 0), (100, 3), (101, 0), (100, 4), (101, 0), (100, 5), (101, 0), (100, 6), (101, 0), (100, 7)] 8 7 1 true true [109, 1, 204, -1, 1001, 100, 1]) =
      some (qState [(100, 1), (101, 0), (100, 2), (101, 0), (100, 3), (101, 0), (100, 4), (101, 0), (100, 5), (101, 0), (100, 6), (101, 0), (100, 7), (101, 0), (100, 8), (101, 0), (100, 9), (101, 0), (100, 10), (101, 0), (100, 11), (101, 0), (100, 12), (101, 0), (100, 13), (101, 0), (100, 14), (101, 0), (100, 15), (101, 0), (100, 16), (101, 1)] 15 16 99 true false [109, 1, 204, -1, 1001, 100, 1, 100, 1008, 100, 16, 101, 1006, 101, 0, 99]) := runNI_cons 47 _ _ _ s33 r34
  have r32 : runNI 49 (qState [(100, 1), (101, 0), (100, 2), (101, 0), (100, 3), (101, 0), (100, 4), (101, 0), (100, 5), (101, 0), (100, 6), (101, 0)] 4 7 1 true true [109, 1, 204, -1, 1001, 100, 1]) =
      some (qState [(100, 1), (101, 0), (100, 2), (101, 0), (100, 3), (101, 0), (100, 4), (101, 0), (100, 5), (101, 0), (100, 6), (101, 0), (100, 7), (101, 0), (100, 8), (101, 0), (100, 9), (101, 0), (100, 10), (101, 0), (100, 11), (101, 0), (100, 12), (101, 0), (100, 13), (101, 0), (100, 14), (101, 0), (100, 15), (101, 0), (100, 16), (101, 1)] 15 16 99 true false [109, 1, 204, -1, 1001, 100, 1, 100, 1008, 100, 16, 101, 1006, 101, 0, 99]) := runNI_cons 48 _ _ _ s32 r33
  have r31 : runNI 50 (qState [(100, 1), (101, 0), (100, 2), (101, 0), (100, 3), (101, 0), (100, 4), (101, 0), (100, 5), (101, 0), (100, 6), (101, 0)] 2 7 100 true true [109, 1, 204, -1, 1001, 100]) =
      some (qState [(100, 1), (101, 0), (100, 2), (101, 0), (100, 3), (101, 0), (100, 4), (101, 0), (100, 5), (101, 0), (100, 6), (101, 0), (100, 7), (101, 0), (100, 8), (101, 0), (100, 9), (101, 0), (100, 10), (101, 0), (100, 11), (101, 0), (100, 12), (101, 0), (100, 13), (101, 0), (100, 14), (101, 0), (100, 15), (101, 0), (100, 16), (101, 1)] 15 16 99 true false [109, 1, 204, -1, 1001, 100, 1, 100, 1008, 100, 16, 101, 1006, 101, 0, 99]) := runNI_cons 49 _ _ _ s31 r32
  have r30 : runNI 51 (qState [(100, 1), (101, 0), (100, 2), (101, 0), (100, 3), (101, 0), (100, 4), (101, 0), (100, 5), (101, 0), (100, 6), (101, 0)] 0 6 100 true true [109, 1, 204, -1, 1001, 100]) =
      some (qState [(100, 1), (101, 0), (100, 2), (101, 0), (100, 3), (101, 0), (100, 4), (101, 0), (100, 5), (101, 0), (100, 6), (101, 0), (100, 7), (101, 0), (100, 8), (101, 0), (100, 9), (101, 0), (100, 10), (101, 0), (100, 11), (101, 0), (100, 12), (101, 0), (100, 13), (101, 0), (100, 14), (101, 0), (100, 15), (101, 0), (100, 16), (101, 1)] 15 16 99 true false [109, 1, 204, -1, 1001, 100, 1, 100, 1008, 100, 16, 101, 1006, 101, 0, 99]) := runNI_cons 50 _ _ _ s30 r31
  have r29 : runNI 52 (qState [(100, 1), (101, 0), (100, 2), (101, 0), (100, 3), (101, 0), (100, 4), (101, 0), (100, 5), (101, 0), (100, 6), (101, 0)] 12 6 100 true true [109, 1, 204, -1, 1001, 100]) =
      some (qState [(100, 1), (101, 0), (100, 2), (101, 0), (100, 3), (101, 0), (100, 4), (101, 0), (100, 5), (101, 0), (100, 6), (101, 0), (100, 7), (101, 0), (100, 8), (101, 0), (100, 9), (101, 0), (100, 10), (101, 0), (100, 11), (101, 0), (100, 12), (101, 0), (100, 13), (101, 0), (100, 14), (101, 0), (100, 15), (101, 0), (100, 16), (101, 1)] 15 16 99 true false [109, 1, 204, -1, 1001, 100, 1, 100, 1008, 100, 16, 101, 1006, 101, 0, 99]) := runNI_cons 51 _ _ _ s29 r30
  have r28 : runNI 53 (qState [(100, 1), (101, 0), (100, 2), (101, 0), (100, 3), (101, 0), (100, 4), (101, 0), (100, 5), (101, 0), (100, 6)] 8 6 100 true true [109, 1, 204, -1, 1001, 100]) =
      some (qState [(100, 1), (101, 0), (100, 2), (101, 0), (100, 3), (101, 0), (100, 4), (101, 0), (100, 5), (101, 0), (100, 6), (101, 0), (100, 7), (101, 0), (100, 8), (101, 0), (100, 9), (101, 0), (100, 10), (101, 0), (100, 11), (101, 0), (100, 12), (101, 0), (100, 13), (101, 0), (100, 14), (101, 0), (100, 15), (101, 0), (100, 16), (101, 1)] 15 16 99 true false [109, 1, 204, -1, 1001, 100, 1, 100, 1008, 100, 16, 101, 1006, 101, 0, 99]) := runNI_cons 52 _ _ _ s28 r29
  have r27 : runNI 54 (qState [(100, 1), (101, 0), (100, 2), (101, 0), (100, 3), (101, 0), (100, 4), (101, 0), (100, 5), (101, 0)] 4 6 100 true true [109, 1, 204, -1, 1001, 100]) =
      some (qState [(100, 1), (101, 0), (100, 2), (101, 0), (100, 3), (101, 0), (100, 4), (101, 0), (100, 5), (101, 0), (100, 6), (101, 0), (100, 7), (101, 0), (100, 8), (101, 0), (100, 9), (101, 0), (100, 10), (101, 0), (100, 11), (101, 0), (100, 12), (101, 0), (100, 13), (101, 0), (100, 14), (101, 0), (100, 15), (101, 0), (100, 16), (101, 1)] 15 16 99 true false [109, 1, 204, -1, 1001, 100, 1, 100, 1008, 100, 16, 101, 1006, 101, 0, 99]) := runNI_cons 53 _ _ _ s27 r28
  have r26 : runNI 55 (qState [(100, 1), (101, 0), (100, 2), (101, 0), (100, 3), (101, 0), (100, 4), (101, 0), (100, 5), (101, 0)] 2 6 1001 true true [109, 1, 204, -1, 1001]) =
      some (qState [(100, 1), (101, 0), (100, 2), (101, 0), (100, 3), (101, 0), (100, 4), (101, 0), (100, 5), (101, 0), (100, 6), (101, 0), (100, 7), (101, 0), (100, 8), (101, 0), (100, 9), (101, 0), (100, 10), (101, 0), (100, 11), (101, 0), (100, 12), (101, 0), (100, 13), (101, 0), (100, 14), (101, 0), (100, 15), (101, 0), (100, 16), (101, 1)] 15 16 99 true false [109, 1, 204, -1, 1001, 100, 1, 100, 1008, 100, 16, 101, 1006, 101, 0, 99]) := runNI_cons 54 _ _ _ s26 r27
  have r25 : runNI 56 (qState [(100, 1), (101, 0), (100, 2), (101, 0), (100, 3), (101, 0), (100, 4), (101, 0), (100, 5), (101, 0)] 0 5 1001 true true [109, 1, 204, -1, 1001]) =
      some (qState [(100, 1), (101, 0), (100, 2), (101, 0), (100, 3), (101, 0), (100, 4), (101, 0), (100, 5), (101, 0), (100, 6), (101, 0), (100, 7), (101, 0), (100, 8), (101, 0), (100, 9), (101, 0), (100, 10), (101, 0), (100, 11), (101, 0), (100, 12), (101, 0), (100, 13), (101, 0), (100, 14), (101, 0), (100, 15), (101, 0), (100, 16), (101, 1)] 15 16 99 true false [109, 1, 204, -1, 1001, 100, 1, 100, 1008, 100, 16, 101, 1006, 101, 0, 99]) := runNI_cons 55 _ _ _ s25 r26
  have r24 : runNI 57 (qState [(100, 1), (101, 0), (100, 2), (101, 0), (100, 3), (101, 0), (100, 4), (101, 0), (100, 5), (101, 0)] 12 5 1001 true true [109, 1, 204, -1, 1001]) =
      some (qState [(100, 1), (101, 0), (100, 2), (101, 0), (100, 3), (101, 0), (100, 4), (101, 0), (100, 5), (101, 0), (100, 6), (101, 0), (100, 7), (101, 0), (100, 8), (101, 0), (100, 9), (101, 0), (100, 10), (101, 0), (100, 11), (101, 0), (100, 12), (101, 0), (100, 13), (101, 0), (100, 14), (101, 0), (100, 15), (101, 0), (100, 16), (101, 1)] 15 16 99 true false [109, 1, 204, -1, 1001, 100, 1, 100, 1008, 100, 16, 101, 1006, 101, 0, 99]) := runNI_cons 56 _ _ _ s24 r25
  have r23 : runNI 58 (qState [(100, 1), (101, 0), (100, 2), (101, 0), (100, 3), (101, 0), (100, 4), (101, 0), (100, 5)] 8 5 1001 true true [109, 1, 204, -1, 1001]) =
      some (qState [(100, 1), (101, 0), (100, 2), (101, 0), (100, 3), (101, 0), (100, 4), (101, 0), (100, 5), (101, 0), (100, 6), (101, 0), (100, 7), (101, 0), (100, 8), (101, 0), (100, 9), (101, 0), (100, 10), (101, 0), (100, 11), (101, 0), (100, 12), (101, 0), (100, 13), (101, 0), (100, 14), (101, 0), (100, 15), (101, 0), (100, 16), (101, 1)] 15 16 99 true false [109, 1, 204, -1, 1001, 100, 1, 100, 1008, 100, 16, 101, 1006, 101, 0, 99]) := runNI_cons 57 _ _ _ s23 r24
  have r22 : runNI 59 (qState [(100, 1), (101, 0), (100, 2), (101, 0), (100, 3), (101, 0), (100, 4), (101, 0)] 4 5 1001 true true [109, 1, 204, -1, 1001]) =
      some (qState [(100, 1), (101, 0), (100, 2), (101, 0), (100, 3), (101, 0), (100, 4), (101, 0), (100, 5), (101, 0), (100, 6), (101, 0), (100, 7), (101, 0), (100, 8), (101, 0), (100, 9), (101, 0), (100, 10), (101, 0), (100, 11), (101, 0), (100, 12), (101, 0), (100, 13), (101, 0), (100, 14), (101, 0), (100, 15), (101, 0), (100, 16), (101, 1)] 15 16 99 true false [109, 1, 204, -1, 1001, 100, 1, 100, 1008, 100, 16, 101, 1006, 101, 0, 99]) := runNI_cons 58 _ _ _ s22 r23
  have r21 : runNI 60 (qState [(100, 1), (101, 0), (100, 2), (101, 0), (100, 3), (101, 0), (100, 4), (101, 0)] 2 5 (-1) true true [109, 1, 204, -1]) =
      some (qState [(100, 1), (101, 0), (100, 2), (101, 0), (100, 3), (101, 0), (100, 4), (101, 0), (100, 5), (101, 0), (100, 6), (101, 0), (100, 7), (101, 0), (100, 8), (101, 0), (100, 9), (101, 0), (100, 10), (101, 0), (100, 11), (101, 0), (100, 12), (101, 0), (100, 13), (101, 0), (100, 14), (101, 0), (100, 15), (101, 0), (100, 16), (101, 1)] 15 16 99 true false [109, 1, 204, -1, 1001, 100, 1, 100, 1008, 100, 16, 101, 1006, 101, 0, 99]) := runNI_cons 59 _ _ _ s21 r22
  have r20 : runNI 61 (qState [(100, 1), (101, 0), (100, 2), (101, 0), (100, 3), (101, 0), (100, 4), (101, 0)] 0 4 (-1) true true [109, 1, 204, -1]) =
      some (qState [(100, 1), (101, 0), (100, 2), (101, 0), (100, 3), (101, 0), (100, 4), (101, 0), (100, 5), (101, 0), (100, 6), (101, 0), (100, 7), (101, 0), (100, 8), (101, 0), (100, 9), (101, 0), (100, 10), (101, 0), (100, 11), (101, 0), (100, 12), (101, 0), (100, 13), (101, 0), (100, 14), (101, 0), (100, 15), (101, 0), (100, 16), (101, 1)] 15 16 99 true false [109, 1, 204, -1, 1001, 100, 1, 100, 1008, 100, 16, 101, 1006, 101, 0, 99]) := runNI_cons 60 _ _ _ s20 r21
  have r19 : runNI 62 (qState [(100, 1), (101, 0), (100, 2), (101, 0), (100, 3), (101, 0), (100, 4), (101, 0)] 12 4 (-1) true true [109, 1, 204, -1]) =
      some (qState [(100, 1), (101, 0), (100, 2), (101, 0), (100, 3), (101, 0), (100, 4), (101, 0), (100, 5), (101, 0), (100, 6), (101, 0), (100, 7), (101, 0), (100, 8), (101, 0), (100, 9), (101, 0), (100, 10), (101, 0), (100, 11), (101, 0), (100, 12), (101, 0), (100, 13), (101, 0), (100, 14), (101, 0), (100, 15), (101, 0), (100, 16), (101, 1)] 15 16 99 true false [109, 1, 204, -1, 1001, 100, 1, 100, 1008, 100, 16, 101, 1006, 101, 0, 99]) := runNI_cons 61 _ _ _ s19 r20
  have r18 : runNI 63 (qState [(100, 1), (101, 0), (100, 2), (101, 0), (100, 3), (101, 0), (100, 4)] 8 4 (-1) true true [109, 1, 204, -1]) =
      some (qState [(100, 1), (101, 0), (100, 2), (101, 0), (100, 3), (101, 0), (100, 4), (101, 0), (100, 5), (101, 0), (100, 6), (101, 0), (100, 7), (101, 0), (100, 8), (101, 0), (100, 9), (101, 0), (100, 10), (101, 0), (100, 11), (101, 0), (100, 12), (101, 0), (100, 13), (101, 0), (100, 14), (101, 0), (100, 15), (101, 0), (100, 16), (101, 1)] 15 16 99 true false [109, 1, 204, -1, 1001, 100, 1, 100, 1008, 100, 16, 101, 1006, 101, 0, 99]) := runNI_cons 62 _ _ _ s18 r19
  have r17 : runNI 64 (qState [(100, 1), (101, 0), (100, 2), (101, 0), (100, 3), (101, 0)] 4 4 (-1) true true [109, 1, 204, -1]) =
      some (qState [(100, 1), (101, 0), (100, 2), (101, 0), (100, 3), (101, 0), (100, 4), (101, 0), (100, 5), (101, 0), (100, 6), (101, 0), (100, 7), (101, 0), (100, 8), (101, 0), (100, 9), (101, 0), (100, 10), (101, 0), (100, 11), (101, 0), (100, 12), (101, 0), (100, 13), (101, 0), (100, 14), (101, 0), (100, 15), (101, 0), (100, 16), (101, 1)] 15 16 99 true false [109, 1, 204, -1, 1001, 100, 1, 100, 1008, 100, 16, 101, 1006, 101, 0, 99]) := runNI_cons 63 _ _ _ s17 r18
  have r16 : runNI 65 (qState [(100, 1), (101, 0), (100, 2), (101, 0), (100, 3), (101, 0)] 2 4 204 true true [109, 1, 204]) =
      some (qState [(100, 1), (101, 0), (100, 2), (101, 0), (100, 3), (101, 0), (100, 4), (101, 0), (100, 5), (101, 0), (100, 6), (101, 0), (100, 7), (101, 0), (100, 8), (101, 0), (100, 9), (101, 0), (100, 10), (101, 0), (100, 11), (101, 0), (100, 12), (101, 0), (100, 13), (101, 0), (100, 14), (101, 0), (100, 15), (101, 0), (100, 16), (101, 1)] 15 16 99 true false [109, 1, 204, -1, 1001, 100, 1, 100, 1008, 100, 16, 101, 1006, 101, 0, 99]) := runNI_cons 64 _ _ _ s16 r17
  have r15 : runNI 66 (qState [(100, 1), (101, 0), (100, 2), (101, 0), (100, 3), (101, 0)] 0 3 204 true true [109, 1, 204]) =
      some (qState [(100, 1), (101, 0), (100, 2), (101, 0), (100, 3), (101, 0), (100, 4), (101, 0), (100, 5), (101, 0), (100, 6), (101, 0), (100, 7), (101, 0), (100, 8), (101, 0), (100, 9), (101, 0), (100, 10), (101, 0), (100, 11), (101, 0), (100, 12), (101, 0), (100, 13), (101, 0), (100, 14), (101, 0), (100, 15), (101, 0), (100, 16), (101, 1)] 15 16 99 true false [109, 1, 204, -1, 1001, 100, 1, 100, 1008, 100, 16, 101, 1006, 101, 0, 99]) := runNI_cons 65 _ _ _ s15 r16
  have r14 : runNI 67 (qState [(100, 1), (101, 0), (100, 2), (101, 0), (100, 3), (101, 0)] 12 3 204 true true [109, 1, 204]) =
      some (qState [(100, 1), (101, 0), (100, 2), (101, 0), (100, 3), (101, 0), (100, 4), (101, 0), (100, 5), (101, 0), (100, 6), (101, 0), (100, 7), (101, 0), (100, 8), (101, 0), (100, 9), (101, 0), (100, 10), (101, 0), (100, 11), (101, 0), (100, 12), (101, 0), (100, 13), (101, 0), (100, 14), (101, 0), (100, 15), (101, 0), (100, 16), (101, 1)] 15 16 99 true false [109, 1, 204, -1, 1001, 100, 1, 100, 1008, 100, 16, 101, 1006, 101, 0, 99]) := runNI_cons 66 _ _ _ s14 r15
  have r13 : runNI 68 (qState [(100, 1), (101, 0), (100, 2), (101, 0), (100, 3)] 8 3 204 true true [109, 1, 204]) =
      some (qState [(100, 1), (101, 0), (100, 2), (101, 0), (100, 3), (101, 0), (100, 4), (101, 0), (100, 5), (101, 0), (100, 6), (101, 0), (100, 7), (101, 0), (100, 8), (101, 0), (100, 9), (101, 0), (100, 10), (101, 0), (100, 11), (101, 0), (100, 12), (101, 0), (100, 13), (101, 0), (100, 14), (101, 0), (100, 15), (101, 0), (100, 16), (101, 1)] 15 16 99 true false [109, 1, 204, -1, 1001, 100, 1, 100, 1008, 100, 16, 101, 1006, 101, 0, 99]) := runNI_cons 67 _ _ _ s13 r14
  have r12 : runNI 69 (qState [(100, 1), (101, 0), (100, 2), (101, 0)] 4 3 204 true true [109, 1, 204]) =
      some (qState [(100, 1), (101, 0), (100, 2), (101, 0), (100, 3), (101, 0), (100, 4), (101, 0), (100, 5), (101, 0), (100, 6), (101, 0), (100, 7), (101, 0), (100, 8), (101, 0), (100, 9), (101, 0), (100, 10), (101, 0), (100, 11), (101, 0), (100, 12), (101, 0), (100, 13), (101, 0), (100, 14), (101, 0), (100, 15), (101, 0), (100, 16), (101, 1)] 15 16 99 true false [109, 1, 204, -1, 1001, 100, 1, 100, 1008, 100, 16, 101, 1006, 101, 0, 99]) := runNI_cons 68 _ _ _ s12 r13
  have r11 : runNI 70 (qState [(100, 1), (101, 0), (100, 2), (101, 0)] 2 3 1 true true [109, 1]) =
      some (qState [(100, 1), (101, 0), (100, 2), (101, 0), (100, 3), (101, 0), (100, 4), (101, 0), (100, 5), (101, 0), (100, 6), (101, 0), (100, 7), (101, 0), (100, 8), (101, 0), (100, 9), (101, 0), (100, 10), (101, 0), (100, 11), (101, 0), (100, 12), (101, 0), (100, 13), (101, 0), (100, 14), (101, 0), (100, 15), (101, 0), (100, 16), (101, 1)] 15 16 99 true false [109, 1, 204, -1, 1001, 100, 1, 100, 1008, 100, 16, 101, 1006, 101, 0, 99]) := runNI_cons 69 _ _ _ s11 r12
  have r10 : runNI 71 (qState [(100, 1), (101, 0), (100, 2), (101, 0)] 0 2 1 true true [109, 1]) =
      some (qState [(100, 1), (101, 0), (100, 2), (101, 0), (100, 3), (101, 0), (100, 4), (101, 0), (100, 5), (101, 0), (100, 6), (101, 0), (100, 7), (101, 0), (100, 8), (101, 0), (100, 9), (101, 0), (100, 10), (101, 0), (100, 11), (101, 0), (100, 12), (101, 0), (100, 13), (101, 0), (100, 14), (101, 0), (100, 15), (101, 0), (100, 16), (101, 1)] 15 16 99 true false [109, 1, 204, -1, 1001, 100, 1, 100, 1008, 100, 16, 101, 1006, 101, 0, 99]) := runNI_cons 70 _ _ _ s10 r11
  have r9 : runNI 72 (qState [(100, 1), (101, 0), (100, 2), (101, 0)] 12 2 1 true true [109, 1]) =
      some (qState [(100, 1), (101, 0), (100, 2), (101, 0), (100, 3), (101, 0), (100, 4), (101, 0), (100, 5), (101, 0), (100, 6), (101, 0), (100, 7), (101, 0), (100, 8), (101, 0), (100, 9), (101, 0), (100, 10), (101, 0), (100, 11), (101, 0), (100, 12), (101, 0), (100, 13), (101, 0), (100, 14), (101, 0), (100, 15), (101, 0), (100, 16), (101, 1)] 15 16 99 true false [109, 1, 204, -1, 1001, 100, 1, 100, 1008, 100, 16, 101, 1006, 101, 0, 99]) := runNI_cons 71 _ _ _ s9 r10
  have r8 : runNI 73 (qState [(100, 1), (101, 0), (100, 2)] 8 2 1 true true [109, 1]) =
      some (qState [(100, 1), (101, 0), (100, 2), (101, 0), (100, 3), (101, 0), (100, 4), (101, 0), (100, 5), (101, 0), (100, 6), (101, 0), (100, 7), (101, 0), (100, 8), (101, 0), (100, 9), (101, 0), (100, 10), (101, 0), (100, 11), (101, 0), (100, 12), (101, 0), (100, 13), (101, 0), (100, 14), (101, 0), (100, 15), (101, 0), (100, 16), (101, 1)] 15 16 99 true false [109, 1, 204, -1, 1001, 100, 1, 100, 1008, 100, 16, 101, 1006, 101, 0, 99]) := runNI_cons 72 _ _ _ s8 r9
  have r7 : runNI 74 (qState [(100, 1), (101, 0)] 4 2 1 true true [109, 1]) =
      some (qState [(100, 1), (101, 0), (100, 2), (101, 0), (100, 3), (101, 0), (100, 4), (101, 0), (100, 5), (101, 0), (100, 6), (101, 0), (100, 7), (101, 0), (100, 8), (101, 0), (100, 9), (101, 0), (100, 10), (101, 0), (100, 11), (101, 0), (100, 12), (101, 0), (100, 13), (101, 0), (100, 14), (101, 0), (100, 15), (101, 0), (100, 16), (101, 1)] 15 16 99 true false [109, 1, 204, -1, 1001, 100, 1, 100, 1008, 100, 16, 101, 1006, 101, 0, 99]) := runNI_cons 73 _ _ _ s7 r8
  have r6 : runNI 75 (qState [(100, 1), (101, 0)] 2 2 109 true true [109]) =
      some (qState [(100, 1), (101, 0), (100, 2), (101, 0), (100, 3), (101, 0), (100, 4), (101, 0), (100, 5), (101, 0), (100, 6), (101, 0), (100, 7), (101, 0), (100, 8), (101, 0), (100, 9), (101, 0), (100, 10), (101, 0), (100, 11), (101, 0), (100, 12), (101, 0), (100, 13), (101, 0), (100, 14), (101, 0), (100, 15), (101, 0), (100, 16), (101, 1)] 15 16 99 true false [109, 1, 204, -1, 1001, 100, 1, 100, 1008, 100, 16, 101, 1006, 101, 0, 99]) := runNI_cons 74 _ _ _ s6 r7
  have r5 : runNI 76 (qState [(100, 1), (101, 0)] 0 1 109 true true [109]) =
      some (qState [(100, 1), (101, 0), (100, 2), (101, 0), (100, 3), (101, 0), (100, 4), (101, 0), (100, 5), (101, 0), (100, 6), (101, 0), (100, 7), (101, 0), (100, 8), (101, 0), (100, 9), (101, 0), (100, 10), (101, 0), (100, 11), (101, 0), (100, 12), (101, 0), (100, 13), (101, 0), (100, 14), (101, 0), (100, 15), (101, 0), (100, 16), (101, 1)] 15 16 99 true false [109, 1, 204, -1, 1001, 100, 1, 100, 1008, 100, 16, 101, 1006, 101, 0, 99]) := runNI_cons 75 _ _ _ s5 r6
  have r4 : runNI 77 (qState [(100, 1), (101, 0)] 12 1 109 true true [109]) =
      some (qState [(100, 1), (101, 0), (100, 2), (101, 0), (100, 3), (101, 0), (100, 4), (101, 0), (100, 5), (101, 0), (100, 6), (101, 0), (100, 7), (101, 0), (100, 8), (101, 0), (100, 9), (101, 0), (100, 10), (101, 0), (100, 11), (101, 0), (100, 12), (101, 0), (100, 13), (101, 0), (100, 14), (101, 0), (100, 15), (101, 0), (100, 16), (101, 1)] 15 16 99 true false [109, 1, 204, -1, 1001, 100, 1, 100, 1008, 100, 16, 101, 1006, 101, 0, 99]) := runNI_cons 76 _ _ _ s4 r5
  have r3 : runNI 78 (qState [(100, 1)] 8 1 109 true true [109]) =
      some (qState [(100, 1), (101, 0), (100, 2), (101, 0), (100, 3), (101, 0), (100, 4), (101, 0), (100, 5), (101, 0), (100, 6), (101, 0), (100, 7), (101, 0), (100, 8), (101, 0), (100, 9), (101, 0), (100, 10), (101, 0), (100, 11), (101, 0), (100, 12), (101, 0), (100, 13), (101, 0), (100, 14), (101, 0), (100, 15), (101, 0), (100, 16), (101, 1)] 15 16 99 true false [109, 1, 204, -1, 1001, 100, 1, 100, 1008, 100, 16, 101, 1006, 101, 0, 99]) := runNI_cons 77 _ _ _ s3 r4
  have r2 : runNI 79 (qState [] 4 1 109 true true [109]) =
      some (qState [(100, 1), (101, 0), (100, 2), (101, 0), (100, 3), (101, 0), (100, 4), (101, 0), (100, 5), (101, 0), (100, 6), (101, 0), (100, 7), (101, 0), (100, 8), (101, 0), (100, 9), (101, 0), (100, 10), (101, 0), (100, 11), (101, 0), (100, 12), (101, 0), (100, 13), (101, 0), (100, 14), (101, 0), (100, 15), (101, 0), (100, 16), (101, 1)] 15 16 99 true false [109, 1, 204, -1, 1001, 100, 1, 100, 1008, 100, 16, 101, 1006, 101, 0, 99]) := runNI_cons 78 _ _ _ s2 r3
  have r1 : runNI 80 (qState [] 2 1 0 false true []) =
      some (qState [(100, 1), (101, 0), (100, 2), (101, 0), (100, 3), (101, 0), (100, 4), (101, 0), (100, 5), (101, 0), (100, 6), (101, 0), (100, 7), (101, 0), (100, 8), (101, 0), (100, 9), (101, 0), (100, 10), (101, 0), (100, 11), (101, 0), (100, 12), (101, 0), (100, 13), (101, 0), (100, 14), (101, 0), (100, 15), (101, 0), (100, 16), (101, 1)] 15 16 99 true false [109, 1, 204, -1, 1001, 100, 1, 100, 1008, 100, 16, 101, 1006, 101, 0, 99]) := runNI_cons 79 _ _ _ s1 r2
  have r0 : runNI 81 (qState [] 0 0 0 false true []) =
      some (qState [(100, 1), (101, 0), (100, 2), (101, 0), (100, 3), (101, 0), (100, 4), (101, 0), (100, 5), (101, 0), (100, 6), (101, 0), (100, 7), (101, 0), (100, 8), (101, 0), (100, 9), (101, 0), (100, 10), (101, 0), (100, 11), (101, 0), (100, 12), (101, 0), (100, 13), (101, 0), (100, 14), (101, 0), (100, 15), (101, 0), (100, 16), (101, 1)] 15 16 99 true false [109, 1, 204, -1, 1001, 100, 1, 100, 1008, 100, 16, 101, 1006, 101, 0, 99]) := runNI_cons 80 _ _ _ s0 r1
  exact r0

/-- C3: for every input (joystick) value, running the machine built from the
quine program by repeated steps terminates with the running flag false and
an output trace equal, in order, to the 16 program values. -/
theorem quine_self_outputs (j : Int) :
    ∃ (n : Nat) (m' : Interpreter),
      stepN n { Interpreter.new quineProgram with joystick := j } = some m' ∧
      m'.is_running = false ∧ m'.outputs = quineProgram := by
  refine ⟨81, setJ (qState [(100, 1), (101, 0), (100, 2), (101, 0), (100, 3), (101, 0), (100, 4), (101, 0), (100, 5), (101, 0), (100, 6), (101, 0), (100, 7), (101, 0), (100, 8), (101, 0), (100, 9), (101, 0), (100, 10), (101, 0), (100, 11), (101, 0), (100, 12), (101, 0), (100, 13), (101, 0), (100, 14), (101, 0), (100, 15), (101, 0), (100, 16), (101, 1)] 15 16 99 true false [109, 1, 204, -1, 1001, 100, 1, 100, 1008, 100, 16, 101, 1006, 101, 0, 99]) j, ?_, rfl, rfl⟩
  exact runNI_setJ 81 (Interpreter.new quineProgram) _ j quine_run_concrete

end Intcode
